import Mathlib

/-!
# Verification of the gtfs-proto snapshot/delta engine

A shallow embedding of the parts of `Zverik/gtfs-proto` that the claims
touch: the symbol tables (`src/gtfs_proto/base.py`), the shape codec and
calendar codec (`src/src/gtfs_proto/util.py`), the diff engine
(`src/src/gtfs_proto/delta.py`) and the merge engine
(`src/src/gtfs_proto/dmerge.py`).

Python dictionaries are modelled as association lists built by
`pyDict`/`dictInsert`, which reproduces CPython semantics: assignment to an
existing key replaces the value in place, assignment to a fresh key appends,
iteration follows that order, and lookup finds the unique binding.  The
protobuf message types are not part of the repository (the wire schema is an
external collaborator per the spec); they are modelled as plain records whose
fields default to the proto3 zero values, exactly the field sets the Python
code reads and writes.  Python dictionary lookups that would raise `KeyError`
(or list indexing that would raise `IndexError`) on malformed documents are
totalised with the type's zero value; no claim below depends on those paths.
-/

namespace GtfsProto

/-- First-match lookup in an association list (the value a Python dict holds
for a key; `pyDict` keeps keys unique, so first match is the binding). -/
def alookup {κ α : Type _} [DecidableEq κ] (k : κ) : List (κ × α) → Option α
  | [] => none
  | p :: t => if p.1 = k then some p.2 else alookup k t

/-- Python dict assignment `d[k] = v`: replace in place when the key exists,
append otherwise. -/
def dictInsert {κ α : Type _} [DecidableEq κ] (d : List (κ × α)) (k : κ) (v : α) :
    List (κ × α) :=
  match alookup k d with
  | some _ => d.map (fun p => if p.1 = k then (k, v) else p)
  | none => d ++ [(k, v)]

/-- `{key(x): x for x in xs}` — a Python dict comprehension keyed by `key`. -/
def pyDict {κ α : Type _} [DecidableEq κ] (key : α → κ) (xs : List α) : List (κ × α) :=
  xs.foldl (fun d x => dictInsert d (key x) x) []

/-- Python `range(a, b)` over naturals (empty when `b ≤ a`). -/
def pyRange (a b : Nat) : List Nat := (List.range (b - a)).map (· + a)

/-- `x or y` for Python strings: the left operand unless it is falsy. -/
def pyOrS (a b : String) : String := if a = "" then b else a

/-- `x or y` for Python integers. -/
def pyOrN (a b : Nat) : Nat := if a = 0 then b else a

/-- `x or y` for Python integers that may be negative. -/
def pyOrZ (a b : Int) : Int := if a = 0 then b else a

/-- `x or y` for Python lists. -/
def pyOrL {α : Type _} (a b : List α) : List α := if a.isEmpty then b else a

/-! ## Symbol tables (`src/gtfs_proto/base.py`) -/

/-- `StringCache` of `base.py`: the ordered string list and the
name-to-index dict (built skipping empty strings). -/
structure StringCache where
  strings : List String := [""]
  index : List (String × Nat) := []
  deriving DecidableEq, Repr, Inhabited

/-- `StringCache.__init__(source)`: `self.strings = source or ['']`;
`self.index = {s: i for i, s in enumerate(self.strings) if s}`. -/
def StringCache.ofList (source : List String) : StringCache :=
  let strings := if source = [] then [""] else source
  { strings := strings
    index := (strings.enum.filter (fun p => p.2 ≠ "")).foldl
      (fun d p => dictInsert d p.2 p.1) [] }

/-- `StringCache.add`: `i = self.index.get(s); if i: return i` — note that
both a missing key and a stored index `0` fall through to the append branch;
the appended string gets index `len(self.strings) - 1`. -/
def StringCache.add (c : StringCache) (s : String) : StringCache × Nat :=
  match alookup s c.index with
  | some i =>
    if i ≠ 0 then (c, i)
    else ({ strings := c.strings ++ [s],
            index := dictInsert c.index s c.strings.length }, c.strings.length)
  | none => ({ strings := c.strings ++ [s],
               index := dictInsert c.index s c.strings.length }, c.strings.length)

/-- `self.strings[i]` (list indexing; valid documents never go out of range). -/
def StringCache.getStr (c : StringCache) (i : Nat) : String := c.strings.getD i ""

/-- `IdReference` of `base.py`: original-id-to-dense-id dict plus the highest
issued dense id. -/
structure IdReference where
  ids : List (String × Nat) := []
  last_id : Nat := 0
  deriving DecidableEq, Repr, Inhabited

/-- `IdReference.__init__(source)`: dict of non-empty source strings to their
positions, `last_id = 0 if not self.ids else max(self.ids.values())`. -/
def IdReference.ofList (source : List String) : IdReference :=
  let ids := (source.enum.filter (fun p => p.2 ≠ "")).foldl
    (fun d p => dictInsert d p.2 p.1) []
  { ids := ids, last_id := (ids.map Prod.snd).foldl max 0 }

/-- `IdReference.add`. -/
def IdReference.add (r : IdReference) (k : String) : IdReference × Nat :=
  match alookup k r.ids with
  | some i => (r, i)
  | none => ({ ids := dictInsert r.ids k (r.last_id + 1), last_id := r.last_id + 1 },
             r.last_id + 1)

/-- `IdReference.get(k, misses)`: `None`/empty keys return `None` before any
mode check; strict mode (`misses=False`) indexes the dict and a miss raises
`KeyError`, modelled as `Except.error`. -/
def IdReference.get (r : IdReference) (k : Option String) (misses : Bool) :
    Except String (Option Nat) :=
  match k with
  | none => .ok none
  | some s =>
    if s = "" then .ok none
    else if misses then .ok (alookup s r.ids)
    else
      match alookup s r.ids with
      | some i => .ok (some i)
      | none => .error "KeyError"

/-! ## Wire message records

Modelled from the spec: the protobuf schema file is not part of the staged
sources (spec §3 treats the wire schema as an externally defined record
schema with default-value omission), so each message is a record with the
fields the Python code accesses, defaulting to the proto3 zero values. -/

structure Agency where
  agency_id : Nat := 0
  name : String := ""
  url : String := ""
  timezone : Nat := 0
  lang : String := ""
  phone : String := ""
  fare_url : String := ""
  email : String := ""
  deriving DecidableEq, Repr, Inhabited

structure Shape where
  shape_id : Nat := 0
  longitudes : List Int := []
  latitudes : List Int := []
  deriving DecidableEq, Repr, Inhabited

structure Stop where
  stop_id : Nat := 0
  code : String := ""
  name : Nat := 0
  desc : String := ""
  lat : Int := 0
  lon : Int := 0
  type : Nat := 0
  parent_id : Nat := 0
  wheelchair : Nat := 0
  platform_code : String := ""
  external_str_id : String := ""
  external_int_id : Nat := 0
  delete : Bool := false
  deriving DecidableEq, Repr, Inhabited

structure RouteItinerary where
  itinerary_id : Nat := 0
  headsign : Nat := 0
  opposite_direction : Bool := false
  stops : List Nat := []
  shape_id : Nat := 0
  stop_headsigns : List Nat := []
  deriving DecidableEq, Repr, Inhabited

structure Route where
  route_id : Nat := 0
  agency_id : Nat := 0
  short_name : String := ""
  long_name : List Nat := []
  desc : String := ""
  type : Nat := 0
  color : Nat := 0
  text_color : Nat := 0
  continuous_pickup : Nat := 0
  continuous_dropoff : Nat := 0
  itineraries : List RouteItinerary := []
  delete : Bool := false
  deriving DecidableEq, Repr, Inhabited

structure Trip where
  trip_id : Nat := 0
  service_id : Nat := 0
  itinerary_id : Nat := 0
  short_name : String := ""
  wheelchair : Nat := 0
  bikes : Nat := 0
  approximate : Bool := false
  departures : List Nat := []
  arrivals : List Nat := []
  pickup_types : List Nat := []
  dropoff_types : List Nat := []
  start_time : Nat := 0
  end_time : Nat := 0
  interval : Nat := 0
  deriving DecidableEq, Repr, Inhabited

structure Transfer where
  from_stop : Nat := 0
  to_stop : Nat := 0
  from_route : Nat := 0
  to_route : Nat := 0
  from_trip : Nat := 0
  to_trip : Nat := 0
  type : Nat := 0
  min_transfer_time : Nat := 0
  delete : Bool := false
  deriving DecidableEq, Repr, Inhabited

structure CalendarDates where
  dates : List Int := []
  deriving DecidableEq, Repr, Inhabited

structure CalendarServiceWire where
  service_id : Nat := 0
  start_date : Int := 0
  end_date : Int := 0
  weekdays : Nat := 0
  added_days : Nat := 0
  removed_days : Nat := 0
  deriving DecidableEq, Repr, Inhabited

structure Calendar where
  base_date : Nat := 0
  dates : List CalendarDates := []
  services : List CalendarServiceWire := []
  deriving DecidableEq, Repr, Inhabited

structure FareLinks where
  stop_areas : List (Nat × Nat) := []
  stop_zones : List (Nat × Nat) := []
  route_networks : List (Nat × Nat) := []
  deriving DecidableEq, Repr, Inhabited

/-! ## Dates

Python `datetime.date` values are embedded as proleptic-Gregorian day
numbers (`Int`): order and day arithmetic coincide, and the
`YYYYMMDD`-integer conversions of `util.py` become the standard
civil-calendar bijection. -/

/-- Day number of a civil date (floor-division form of the standard
era/year-of-era computation). -/
def daysFromCivil (y : Int) (m d : Int) : Int :=
  let y' := if m ≤ 2 then y - 1 else y
  let era := Int.fdiv y' 400
  let yoe := y' - era * 400
  let mp := Int.fmod (m + 9) 12
  let doy := Int.fdiv (153 * mp + 2) 5 + d - 1
  let doe := yoe * 365 + Int.fdiv yoe 4 - Int.fdiv yoe 100 + doy
  era * 146097 + doe - 719468

/-- Civil date (y, m, d) of a day number; inverse of `daysFromCivil`. -/
def civilFromDays (z0 : Int) : Int × Int × Int :=
  let z := z0 + 719468
  let era := Int.fdiv z 146097
  let doe := z - era * 146097
  let yoe := Int.fdiv (doe - Int.fdiv doe 1460 + Int.fdiv doe 36524 - Int.fdiv doe 146096) 365
  let y := yoe + era * 400
  let doy := doe - (365 * yoe + Int.fdiv yoe 4 - Int.fdiv yoe 100)
  let mp := Int.fdiv (5 * doy + 2) 153
  let d := doy - Int.fdiv (153 * mp + 2) 5 + 1
  let m := if mp < 10 then mp + 3 else mp - 9
  (if m ≤ 2 then y + 1 else y, m, d)

/-- `int_to_date` of `util.py`: `date(d // 10000, (d % 10000) // 100, d % 100)`. -/
def int_to_date (n : Nat) : Int :=
  daysFromCivil (n / 10000) ((n % 10000) / 100) (n % 100)

/-- `int(d.strftime('%Y%m%d'))` used by `build_calendar`. -/
def date_to_int (z : Int) : Nat :=
  let c := civilFromDays z
  (c.1 * 10000 + c.2.1 * 100 + c.2.2).toNat

/-! ## Calendar codec (`src/src/gtfs_proto/util.py`) -/

/-- Domain view of one service, `CalendarService` of `util.py`. -/
structure CalendarService where
  service_id : Nat := 0
  start_date : Option Int := none
  end_date : Option Int := none
  weekdays : List Bool := [false, false, false, false, false, false, false]
  added_days : List Int := []
  removed_days : List Int := []
  deriving DecidableEq, Repr, Inhabited

/-- `cut` inside `CalendarService.equals`: keep dates strictly after the
base date (all dates when no base date is given). -/
def cutDates (dates : List Int) (bd : Option Int) : List Int :=
  match bd with
  | none => dates
  | some b => dates.filter (fun d => b < d)

/-- `cap` inside `CalendarService.equals`. -/
def capDate (d : Option Int) (bd : Option Int) : Option Int :=
  match d, bd with
  | none, _ => none
  | some x, none => some x
  | some x, some b => if b < x then some x else some b

/-- `CalendarService.equals(other, base_date)`. -/
def CalendarService.equals (a b : CalendarService) (bd : Option Int) : Bool :=
  a.service_id == b.service_id &&
  capDate a.start_date bd == capDate b.start_date bd &&
  capDate a.end_date bd == capDate b.end_date bd &&
  a.weekdays == b.weekdays &&
  cutDates b.added_days bd == cutDates a.added_days bd &&
  cutDates b.removed_days bd == cutDates a.removed_days bd

/-- `add_base_date` inside `parse_calendar`: cumulative sums of day offsets
starting from the base date. -/
def addBaseDate (d : List Int) (base : Int) : List Int :=
  (d.foldl (fun (acc : Int × List Int) x =>
    let nd := acc.1 + x
    (nd, acc.2 ++ [nd])) (base, [])).2

/-- `parse_calendar` of `util.py`. -/
def parse_calendar (c : Calendar) : List CalendarService :=
  let base := int_to_date c.base_date
  let datesDec := c.dates.map (fun dd => addBaseDate dd.dates base)
  c.services.map (fun (s : CalendarServiceWire) =>
    ({ service_id := s.service_id
       start_date := if s.start_date = 0 then none else some (base + s.start_date)
       end_date := if s.end_date = 0 then none else some (base + s.end_date)
       weekdays := (List.range 7).map (fun i => s.weekdays.testBit i)
       added_days := datesDec.getD s.added_days []
       removed_days := datesDec.getD s.removed_days [] } : CalendarService))

/-- `pack_dates` inside `build_calendar`: sort, drop dates not after the
base date, and store successive differences from the previous kept date
(initially the base date). -/
def packDates (dates : List Int) (base : Int) : List Int :=
  ((dates.insertionSort (· ≤ ·)).foldl
    (fun (acc : Int × List Int) d =>
      if base < d then (d, acc.2 ++ [d - acc.1]) else acc) (base, [])).2

/-- `find_or_add` inside `build_calendar` (threads the mutated pool). -/
def find_or_add (dates : List Int) (data : List (List Int)) : Nat × List (List Int) :=
  match data.findIdx? (fun stored => stored == dates) with
  | some i => (i, data)
  | none => (data.length, data ++ [dates])

/-- `build_calendar` of `util.py`.  The diff and merge engines always pass a
base date, so the `None → today - 2 days` default of the source is not
modelled. -/
def build_calendar (services : List CalendarService) (base_date : Int) : Calendar :=
  let step := fun (acc : List (List Int) × List CalendarServiceWire) (s : CalendarService) =>
    let end_date : Int := match s.end_date with
      | none => base_date
      | some e => if e < base_date then base_date + 1 else e
    let p1 := find_or_add (packDates s.added_days base_date) acc.1
    let p2 := find_or_add (packDates s.removed_days base_date) p1.2
    (p2.2, acc.2 ++ [{
      service_id := s.service_id
      start_date := match s.start_date with
        | none => 0
        | some st => if st < base_date then 0 else st - base_date
      end_date := end_date - base_date
      weekdays := (List.range 7).foldl
        (fun n i => if s.weekdays.getD i false then n + 2 ^ i else n) 0
      added_days := p1.1
      removed_days := p2.1 }])
  let r := services.foldl step ([[]], [])
  { base_date := date_to_int base_date
    dates := r.1.map (fun d => { dates := d })
    services := r.2 }

/-! ## Shape codec (`src/src/gtfs_proto/util.py`) -/

def SHAPE_SCALE : ℚ := 100000

/-- Python 3 `round`: nearest integer, ties to the even integer. -/
def pyRound (q : ℚ) : ℤ :=
  if q - ⌊q⌋ < 1 / 2 then ⌊q⌋
  else if 1 / 2 < q - ⌊q⌋ then ⌊q⌋ + 1
  else if ⌊q⌋ % 2 = 0 then ⌊q⌋ else ⌊q⌋ + 1

/-- The per-point deltas written by the `build_shape` loop, carrying the
`last_coord` cursor. -/
def buildDeltas (last : ℤ × ℤ) : List (ℚ × ℚ) → List (ℤ × ℤ)
  | [] => []
  | c :: rest =>
    let nc := (pyRound (c.1 * SHAPE_SCALE), pyRound (c.2 * SHAPE_SCALE))
    (nc.1 - last.1, nc.2 - last.2) :: buildDeltas nc rest

/-- `build_shape` of `util.py`: rejects fewer than two points, else writes
successive fixed-point deltas. -/
def build_shape (shape_id : Nat) (coords : List (ℚ × ℚ)) : Except String Shape :=
  if coords.length < 2 then .error "Got fewer than 2 coords for shape"
  else
    let ds := buildDeltas (0, 0) coords
    .ok { shape_id := shape_id, longitudes := ds.map Prod.fst, latitudes := ds.map Prod.snd }

/-- The cumulative-sum loop of `parse_shape`, carrying the `last_coord`
cursor. -/
def parseFrom (last : ℤ × ℤ) : List (ℤ × ℤ) → List (ℚ × ℚ)
  | [] => []
  | d :: rest =>
    let c := (d.1 + last.1, d.2 + last.2)
    ((c.1 : ℚ) / SHAPE_SCALE, (c.2 : ℚ) / SHAPE_SCALE) :: parseFrom c rest

/-- `parse_shape` of `util.py` (the loop indexes `latitudes[i]` alongside
`longitudes[i]`, i.e. walks the two lists in lockstep). -/
def parse_shape (sh : Shape) : List (ℚ × ℚ) :=
  parseFrom (0, 0) (sh.longitudes.zip sh.latitudes)

/-! ## Diff engine (`src/src/gtfs_proto/delta.py`)

`DeltaMaker` holds three string caches; only the delta's own cache is
mutated, so each method threads it explicitly.  A Python dictionary lookup
`self.s_new.index[...]` that would raise `KeyError` on inconsistent
snapshots is totalised to 0; the theorems below only use it under
hypotheses that keep it in range. -/

namespace DeltaMaker

/-- `DeltaMaker.add_string`: re-add a referenced string of the new snapshot
into the delta's cache. -/
def add_string (sNew st : StringCache) (sid : Nat) : StringCache × Nat :=
  if sid ≠ 0 then st.add (sNew.getStr sid) else (st, 0)

/-- `DeltaMaker.from_old`: translate an old-snapshot string id into the new
snapshot's numbering. -/
def from_old (sOld sNew : StringCache) (sid : Nat) : Nat :=
  if sid = 0 then 0 else (alookup (sOld.getStr sid) sNew.index).getD 0

/-- `DeltaMaker.if_str_changed` (a `None` result is the proto default 0). -/
def if_str_changed (sNew st : StringCache) (o n : Nat) : StringCache × Nat :=
  if o ≠ n then add_string sNew st n else (st, 0)

/-- `[self.add_string(s) for s in l]`, threading the delta cache. -/
def addStringList (sNew st : StringCache) (l : List Nat) : StringCache × List Nat :=
  l.foldl (fun (a : StringCache × List Nat) h =>
    let p := add_string sNew a.1 h
    (p.1, a.2 ++ [p.2])) (st, [])

/-- The body of the `DeltaMaker.agencies` loop for one entry of the new
snapshot's agency dict. -/
def agencyStep (sOld sNew : StringCache) (ad1 : List (Nat × Agency))
    (acc : StringCache × List Agency) (kv : Nat × Agency) : StringCache × List Agency :=
  match alookup kv.1 ad1 with
  | none =>
    let p := add_string sNew acc.1 kv.2.timezone
    (p.1, acc.2 ++ [{ kv.2 with timezone := p.2 }])
  | some o =>
    let old := { o with timezone := from_old sOld sNew o.timezone }
    let v := kv.2
    if v = old then acc
    else
      let tz := if_str_changed sNew acc.1 old.timezone v.timezone
      (tz.1, acc.2 ++ [{
        agency_id := kv.1
        name := if old.name = v.name then "" else v.name
        url := if old.url = v.url then "" else v.url
        timezone := tz.2
        lang := if old.lang = v.lang then "" else v.lang
        phone := if old.phone = v.phone then "" else v.phone
        fare_url := if old.fare_url = v.fare_url then "" else v.fare_url
        email := if old.email = v.email then "" else v.email }])

/-- `DeltaMaker.agencies`.  Note the source has no loop over ids present
only in the old snapshot: removed agencies produce no record. -/
def agencies (sOld sNew st : StringCache) (a1 a2 : List Agency) :
    StringCache × List Agency :=
  let ad1 := pyDict Agency.agency_id a1
  let ad2 := pyDict Agency.agency_id a2
  ad2.foldl (agencyStep sOld sNew ad1) (st, [])

/-- The body of the `DeltaMaker.calendar` loop for one service of the new
snapshot. -/
def calendarStep (today : Int) (cd1 : List (Nat × CalendarService))
    (acc : List CalendarService) (kv : Nat × CalendarService) : List CalendarService :=
  match alookup kv.1 cd1 with
  | none => acc ++ [kv.2]
  | some o => if o.equals kv.2 (some (today - 1)) then acc else acc ++ [kv.2]

/-- `DeltaMaker.calendar`; `today` stands for `dt.date.today()`. -/
def calendar (today : Int) (c1 c2 : Calendar) : Calendar :=
  let cd1 := pyDict CalendarService.service_id (parse_calendar c1)
  let cd2 := pyDict CalendarService.service_id (parse_calendar c2)
  let tombs := (cd1.filter (fun p => alookup p.1 cd2 = none)).map
    (fun p => ({ service_id := p.1 } : CalendarService))
  build_calendar (cd2.foldl (calendarStep today cd1) tombs) (int_to_date c2.base_date)

/-- The body of the `DeltaMaker.shapes` loop for one entry. -/
def shapeStep (sd1 : List (Nat × Shape)) (acc : List Shape) (kv : Nat × Shape) :
    List Shape :=
  match alookup kv.1 sd1 with
  | none => acc ++ [kv.2]
  | some old =>
    if old.longitudes ≠ kv.2.longitudes ∨ old.latitudes ≠ kv.2.latitudes
    then acc ++ [kv.2] else acc

/-- `DeltaMaker.shapes`. -/
def shapes (s1 s2 : List Shape) : List Shape :=
  let sd1 := pyDict Shape.shape_id s1
  let sd2 := pyDict Shape.shape_id s2
  let tombs := (sd1.filter (fun p => alookup p.1 sd2 = none)).map
    (fun p => ({ shape_id := p.1 } : Shape))
  sd2.foldl (shapeStep sd1) tombs

/-- The body of the `DeltaMaker.stops` loop for one entry of the new
snapshot's stop dict. -/
def stopStep (sOld sNew : StringCache) (sd1 : List (Nat × Stop))
    (acc : StringCache × List Stop) (kv : Nat × Stop) : StringCache × List Stop :=
  match alookup kv.1 sd1 with
  | none =>
    let p := add_string sNew acc.1 kv.2.name
    (p.1, acc.2 ++ [{ kv.2 with name := p.2 }])
  | some o =>
    let old := { o with name := from_old sOld sNew o.name }
    let v := kv.2
    if old = v then acc
    else
      let np := if_str_changed sNew acc.1 old.name v.name
      (np.1, acc.2 ++ [{
        stop_id := kv.1
        code := if old.code = v.code then "" else v.code
        name := np.2
        desc := if old.desc = v.desc then "" else v.desc
        lat := if old.lat = v.lat ∧ old.lon = v.lon then 0 else v.lat
        lon := if old.lat = v.lat ∧ old.lon = v.lon then 0 else v.lon
        type := v.type
        parent_id := if old.parent_id = v.parent_id then 0 else v.parent_id
        wheelchair := v.wheelchair
        platform_code := if old.platform_code = v.platform_code then "" else v.platform_code
        external_str_id :=
          if old.external_str_id = v.external_str_id then "" else v.external_str_id
        external_int_id :=
          if old.external_int_id = v.external_int_id then 0 else v.external_int_id }])

/-- `DeltaMaker.stops`: tombstones (`delete=True`) for removed ids, full
records for fresh ids, sparse records for changed ids. -/
def stops (sOld sNew st : StringCache) (s1 s2 : List Stop) :
    StringCache × List Stop :=
  let sd1 := pyDict Stop.stop_id s1
  let sd2 := pyDict Stop.stop_id s2
  let tombs := (sd1.filter (fun p => alookup p.1 sd2 = none)).map
    (fun p => ({ stop_id := p.1, delete := true } : Stop))
  sd2.foldl (stopStep sOld sNew sd1) (st, tombs)

/-- Rehoming of an old itinerary's strings done before comparison inside
`DeltaMaker.itineraries`. -/
def rehomeItin (sOld sNew : StringCache) (it : RouteItinerary) : RouteItinerary :=
  { it with headsign := from_old sOld sNew it.headsign
            stop_headsigns := it.stop_headsigns.map (from_old sOld sNew) }

/-- Re-adding of an emitted itinerary's strings into the delta cache. -/
def addItinStrings (sNew st : StringCache) (it : RouteItinerary) :
    StringCache × RouteItinerary :=
  let hp := add_string sNew st it.headsign
  let shp := addStringList sNew hp.1 it.stop_headsigns
  (shp.1, { it with headsign := hp.2, stop_headsigns := shp.2 })

/-- `DeltaMaker.itineraries`. -/
def itineraries (sOld sNew st : StringCache) (i1 i2 : List RouteItinerary) :
    StringCache × List RouteItinerary :=
  let di1 := pyDict RouteItinerary.itinerary_id i1
  let di2 := pyDict RouteItinerary.itinerary_id i2
  let tombs := (di1.filter (fun p => alookup p.1 di2 = none)).map
    (fun p => ({ itinerary_id := p.1 } : RouteItinerary))
  di2.foldl (fun acc kv =>
    let emit := match alookup kv.1 di1 with
      | none => true
      | some o => rehomeItin sOld sNew o ≠ kv.2
    if emit then
      let p := addItinStrings sNew acc.1 kv.2
      (p.1, acc.2 ++ [p.2])
    else acc) (st, tombs)

/-- A route with its itinerary list cleared (`CopyFrom` followed by
`del itineraries[:]` in the source). -/
def eraseItins (r : Route) : Route := { r with itineraries := [] }

/-- `sorted(itineraries, key=lambda it: it.itinerary_id)`.  Python's sort is
stable, and a stable sort by a key is unique, so `insertionSort` by the same
key computes the same list. -/
def sortItins (l : List RouteItinerary) : List RouteItinerary :=
  l.insertionSort (fun a b => a.itinerary_id ≤ b.itinerary_id)

/-- Rehoming of an old route's `long_name` strings done before comparison. -/
def rehomeRouteNames (sOld sNew : StringCache) (r : Route) : Route :=
  { r with long_name := r.long_name.map (from_old sOld sNew) }

/-- The body of the `DeltaMaker.routes` loop for one entry of the new
snapshot's route dict.  For a fresh route the source clears
`v.itineraries` before calling `self.itineraries([], v.itineraries)`, so
the emitted record carries an empty itinerary list. -/
def routeStep (sOld sNew : StringCache) (rd1 : List (Nat × Route))
    (acc : StringCache × List Route) (kv : Nat × Route) : StringCache × List Route :=
  match alookup kv.1 rd1 with
  | none =>
    let v := kv.2
    let lp := addStringList sNew acc.1 v.long_name
    let ip := itineraries sOld sNew lp.1 [] []
    (ip.1, acc.2 ++ [{ v with long_name := lp.2, itineraries := ip.2 }])
  | some o =>
    let old := rehomeRouteNames sOld sNew o
    let v := kv.2
    let i1 := sortItins old.itineraries
    let i2 := sortItins v.itineraries
    if old = v then acc
    else if eraseItins old = eraseItins v ∧ i1 = i2 then acc
    else
      let p :=
        if eraseItins old = eraseItins v then (acc.1, ({ route_id := kv.1 } : Route))
        else
          let lnp := if old.long_name = v.long_name
            then (acc.1, ([] : List Nat))
            else addStringList sNew acc.1 v.long_name
          (lnp.1, ({
            route_id := kv.1
            agency_id := if old.agency_id ≠ v.agency_id then 0 else v.agency_id
            short_name := if old.short_name ≠ v.short_name then "" else v.short_name
            long_name := lnp.2
            desc := if old.desc ≠ v.desc then "" else v.desc
            type := v.type
            color := v.color
            text_color := v.text_color
            continuous_pickup := v.continuous_pickup
            continuous_dropoff := v.continuous_dropoff } : Route))
      let ip := itineraries sOld sNew p.1 old.itineraries v.itineraries
      (ip.1, acc.2 ++ [{ p.2 with itineraries := p.2.itineraries ++ ip.2 }])

/-- `DeltaMaker.routes`: tombstones (`delete=True`) for removed ids, then
the per-entry loop. -/
def routes (sOld sNew st : StringCache) (r1 r2 : List Route) :
    StringCache × List Route :=
  let rd1 := pyDict Route.route_id r1
  let rd2 := pyDict Route.route_id r2
  let tombs := (rd1.filter (fun p => alookup p.1 rd2 = none)).map
    (fun p => ({ route_id := p.1, delete := true } : Route))
  rd2.foldl (routeStep sOld sNew rd1) (st, tombs)

/-- The body of the `DeltaMaker.trips` loop for one entry. -/
def tripStep (td1 : List (Nat × Trip)) (acc : List Trip) (kv : Nat × Trip) :
    List Trip :=
  match alookup kv.1 td1 with
  | none => acc ++ [kv.2]
  | some old =>
    if old = kv.2 then acc
    else
      let v := kv.2
      let adc := old.departures ≠ v.departures ∨ old.arrivals ≠ v.arrivals
      acc ++ [{
          trip_id := kv.1
          service_id := if old.service_id = v.service_id then 0 else v.service_id
          itinerary_id := if old.itinerary_id = v.itinerary_id then 0 else v.itinerary_id
          short_name := if old.short_name = v.short_name then "" else v.short_name
          wheelchair := v.wheelchair
          bikes := v.bikes
          approximate := v.approximate
          departures := if adc then v.departures else []
          arrivals := if adc then v.arrivals else []
          pickup_types := if old.pickup_types = v.pickup_types then [] else v.pickup_types
          dropoff_types := if old.dropoff_types = v.dropoff_types then [] else v.dropoff_types
          start_time := if old.start_time = v.start_time then 0 else v.start_time
          end_time := if old.end_time = v.end_time then 0 else v.end_time
          interval := if old.interval = v.interval then 0 else v.interval }]

/-- `DeltaMaker.trips`: tombstones are id-only records (no delete flag). -/
def trips (t1 t2 : List Trip) : List Trip :=
  let td1 := pyDict Trip.trip_id t1
  let td2 := pyDict Trip.trip_id t2
  let tombs := (td1.filter (fun p => alookup p.1 td2 = none)).map
    (fun p => ({ trip_id := p.1 } : Trip))
  td2.foldl (tripStep td1) tombs

/-- `transfer_key` of `delta.py`/`dmerge.py`. -/
def transfer_key (t : Transfer) : Nat × Nat × Nat × Nat × Nat × Nat :=
  (t.from_stop, t.to_stop, t.from_route, t.to_route, t.from_trip, t.to_trip)

/-- The body of the `DeltaMaker.transfers` loop for one entry. -/
def transferStep (td1 : List ((Nat × Nat × Nat × Nat × Nat × Nat) × Transfer))
    (acc : List Transfer) (kv : (Nat × Nat × Nat × Nat × Nat × Nat) × Transfer) :
    List Transfer :=
  match alookup kv.1 td1 with
  | none => acc ++ [kv.2]
  | some old => if old = kv.2 then acc else acc ++ [kv.2]

/-- `DeltaMaker.transfers`: tombstones keep the six key fields and set
`delete=True`. -/
def transfers (t1 t2 : List Transfer) : List Transfer :=
  let td1 := pyDict transfer_key t1
  let td2 := pyDict transfer_key t2
  let tombs := (td1.filter (fun p => alookup p.1 td2 = none)).map
    (fun p => ({ from_stop := p.2.from_stop, to_stop := p.2.to_stop
                 from_route := p.2.from_route, to_route := p.2.to_route
                 from_trip := p.2.from_trip, to_trip := p.2.to_trip
                 delete := true } : Transfer))
  td2.foldl (transferStep td1) tombs

/-- `DeltaMaker.delta_dict` for the network/area name maps. -/
def delta_dict (d1 d2 : List (Nat × String)) : List (Nat × String) :=
  d2.filter (fun kv => alookup kv.1 d1 ≠ some kv.2)

/-- `delta_dict_int` inside `DeltaMaker.fare_links` (changed entries from
the new map, plus zero entries for removed keys). -/
def delta_dict_int (d1 d2 : List (Nat × Nat)) : List (Nat × Nat) :=
  let ch := d2.filter (fun kv => alookup kv.1 d1 ≠ some kv.2)
  (d1.filter (fun kv => alookup kv.1 d2 = none)).foldl
    (fun d kv => dictInsert d kv.1 0) ch

/-- `DeltaMaker.fare_links`. -/
def fare_links (f1 f2 : FareLinks) : FareLinks :=
  { stop_areas := delta_dict_int f1.stop_areas f2.stop_areas
    stop_zones := delta_dict_int f1.stop_zones f2.stop_zones
    route_networks := delta_dict_int f1.route_networks f2.route_networks }

end DeltaMaker

/-- A full snapshot's decoded collections and string cache. -/
structure Snapshot where
  strings : StringCache := {}
  agencies : List Agency := []
  calendar : Calendar := {}
  shapes : List Shape := []
  stops : List Stop := []
  routes : List Route := []
  trips : List Trip := []
  transfers : List Transfer := []
  networks : List (Nat × String) := []
  areas : List (Nat × String) := []
  fare_links : FareLinks := {}
  deriving DecidableEq, Repr, Inhabited

structure GtfsDeltaHeader where
  old_version : Nat := 0
  version : Nat := 0
  date : Nat := 0
  compressed : Bool := false
  deriving DecidableEq, Repr, Inhabited

/-- A delta document's decoded contents. -/
structure Delta where
  header : GtfsDeltaHeader := {}
  strings : StringCache := {}
  id_store : List (Nat × IdReference) := []
  agencies : List Agency := []
  calendar : Calendar := {}
  shapes : List Shape := []
  stops : List Stop := []
  routes : List Route := []
  trips : List Trip := []
  transfers : List Transfer := []
  networks : List (Nat × String) := []
  areas : List (Nat × String) := []
  fare_links : FareLinks := {}
  deriving DecidableEq, Repr, Inhabited

/-- The entity-collection assembly of `delta()` (`delta.py` lines 307-317):
every `DeltaMaker` method applied in program order, threading the delta's
string cache `st`. -/
def diffSnapshot (today : Int) (st : StringCache) (f1 f2 : Snapshot) : Delta :=
  let sOld := f1.strings
  let sNew := f2.strings
  let p1 := DeltaMaker.agencies sOld sNew st f1.agencies f2.agencies
  let cal := DeltaMaker.calendar today f1.calendar f2.calendar
  let shs := DeltaMaker.shapes f1.shapes f2.shapes
  let p2 := DeltaMaker.stops sOld sNew p1.1 f1.stops f2.stops
  let p3 := DeltaMaker.routes sOld sNew p2.1 f1.routes f2.routes
  { strings := p3.1
    agencies := p1.2
    calendar := cal
    shapes := shs
    stops := p2.2
    routes := p3.2
    trips := DeltaMaker.trips f1.trips f2.trips
    transfers := DeltaMaker.transfers f1.transfers f2.transfers
    networks := DeltaMaker.delta_dict f1.networks f2.networks
    areas := DeltaMaker.delta_dict f1.areas f2.areas
    fare_links := DeltaMaker.fare_links f1.fare_links f2.fare_links }

/-! ## Merge engine (`src/src/gtfs_proto/dmerge.py`) -/

namespace DeltaMerger

/-- `DeltaMerger.add_string`: re-home a second-delta string reference into
the output's cache. -/
def add_string (sNew st : StringCache) (sid : Nat) : StringCache × Nat :=
  if sid ≠ 0 then st.add (sNew.getStr sid) else (st, 0)

/-- `DeltaMerger.agencies`.  The loop's first expression constructs
`gtfs.Agency(a.agency_id)` with a positional argument; protobuf message
constructors accept keyword arguments only, so the call raises `TypeError`
on the first record of `a2` and the rest of the loop body is unreachable.
The method therefore returns the first delta's agency dict when the second
delta has no agencies, and raises otherwise. -/
def agencies (sNew st : StringCache) (a1 a2 : List Agency) :
    Except String (StringCache × List Agency) :=
  match a2 with
  | [] => .ok (st, (pyDict Agency.agency_id a1).map Prod.snd)
  | _ :: _ => .error "TypeError: No positional arguments allowed"

/-- `DeltaMerger.calendar`: second delta's services replace the first's. -/
def calendar (c1 c2 : Calendar) : Calendar :=
  let cd1 := pyDict CalendarService.service_id (parse_calendar c1)
  let m := (parse_calendar c2).foldl (fun d c => dictInsert d c.service_id c) cd1
  build_calendar (m.map Prod.snd) (int_to_date c2.base_date)

/-- `DeltaMerger.shapes`: plain dict update keyed by shape id. -/
def shapes (s1 s2 : List Shape) : List Shape :=
  ((s2.foldl (fun d s => dictInsert d s.shape_id s)
    (pyDict Shape.shape_id s1)).map Prod.snd)

/-- `DeltaMerger.stops`: tombstones and fresh ids replace wholesale;
two sparse patches merge field by field. -/
def stops (sNew st : StringCache) (s1 s2 : List Stop) : StringCache × List Stop :=
  let sd1 := pyDict Stop.stop_id s1
  let p := s2.foldl (fun (acc : StringCache × List (Nat × Stop)) s0 =>
    let sp := add_string sNew acc.1 s0.name
    let s := { s0 with name := sp.2 }
    if s.delete ∨ alookup s.stop_id acc.2 = none then
      (sp.1, dictInsert acc.2 s.stop_id s)
    else
      let first := (alookup s.stop_id acc.2).getD {}
      (sp.1, dictInsert acc.2 s.stop_id {
        stop_id := s.stop_id
        code := pyOrS first.code s.code
        name := pyOrN s.name first.name
        desc := pyOrS s.desc first.desc
        lat := pyOrZ s.lat first.lat
        lon := pyOrZ s.lon first.lon
        type := s.type
        parent_id := pyOrN s.parent_id first.parent_id
        wheelchair := s.wheelchair
        platform_code := pyOrS s.platform_code first.platform_code
        external_str_id := pyOrS s.external_str_id first.external_str_id
        external_int_id := pyOrN s.external_int_id first.external_int_id })) (st, sd1)
  (p.1, p.2.map Prod.snd)

/-- `DeltaMerger.routes`. -/
def routes (sNew st : StringCache) (r1 r2 : List Route) : StringCache × List Route :=
  let rd1 := pyDict Route.route_id r1
  let p := r2.foldl (fun (acc : StringCache × List (Nat × Route)) r0 =>
    let lp := DeltaMaker.addStringList sNew acc.1 r0.long_name
    let itp := r0.itineraries.foldl (fun (a : StringCache × List RouteItinerary) it =>
      let q := DeltaMaker.addItinStrings sNew a.1 it
      (q.1, a.2 ++ [q.2])) (lp.1, [])
    let r := { r0 with long_name := lp.2, itineraries := itp.2 }
    if r.delete ∨ alookup r.route_id acc.2 = none then
      (itp.1, dictInsert acc.2 r.route_id r)
    else
      let first := (alookup r.route_id acc.2).getD {}
      let it2 := r.itineraries.foldl (fun d it => dictInsert d it.itinerary_id it)
        (pyDict RouteItinerary.itinerary_id first.itineraries)
      (itp.1, dictInsert acc.2 r.route_id {
        route_id := r.route_id
        agency_id := pyOrN r.agency_id first.agency_id
        short_name := pyOrS r.short_name first.short_name
        long_name := pyOrL r.long_name first.long_name
        desc := pyOrS r.desc first.desc
        type := r.type
        color := r.color
        text_color := r.text_color
        continuous_pickup := r.continuous_pickup
        continuous_dropoff := r.continuous_dropoff
        itineraries := it2.map Prod.snd })) (st, rd1)
  (p.1, p.2.map Prod.snd)

/-- `DeltaMerger.trips`. -/
def trips (t1 t2 : List Trip) : List Trip :=
  let td1 := pyDict Trip.trip_id t1
  (t2.foldl (fun d t =>
    match alookup t.trip_id d with
    | none => dictInsert d t.trip_id t
    | some first =>
      if t = ({ trip_id := t.trip_id } : Trip) then dictInsert d t.trip_id t
      else
        dictInsert d t.trip_id {
          trip_id := t.trip_id
          service_id := pyOrN t.service_id first.service_id
          itinerary_id := pyOrN t.itinerary_id first.itinerary_id
          short_name := pyOrS t.short_name first.short_name
          wheelchair := t.wheelchair
          bikes := t.bikes
          approximate := t.approximate
          departures := if t.departures ≠ [] ∨ t.arrivals ≠ []
            then t.departures else first.departures
          arrivals := if t.departures ≠ [] ∨ t.arrivals ≠ []
            then t.arrivals else first.arrivals
          pickup_types := pyOrL t.pickup_types first.pickup_types
          dropoff_types := pyOrL t.dropoff_types first.dropoff_types
          start_time := pyOrN t.start_time first.start_time
          end_time := pyOrN t.end_time first.end_time
          interval := pyOrN t.interval first.interval }) td1).map Prod.snd

/-- `DeltaMerger.transfers`: plain dict update keyed by the transfer key. -/
def transfers (t1 t2 : List Transfer) : List Transfer :=
  ((t2.foldl (fun d t => dictInsert d (DeltaMaker.transfer_key t) t)
    (pyDict DeltaMaker.transfer_key t1)).map Prod.snd)

/-- Python `dict.update` for integer-valued maps. -/
def updateMap (d1 d2 : List (Nat × Nat)) : List (Nat × Nat) :=
  d2.foldl (fun d kv => dictInsert d kv.1 kv.2) d1

/-- Python `dict.update` for string-valued maps. -/
def updateMapS (d1 d2 : List (Nat × String)) : List (Nat × String) :=
  d2.foldl (fun d kv => dictInsert d kv.1 kv.2) d1

/-- `DeltaMerger.fare_links`. -/
def fare_links (f1 f2 : FareLinks) : FareLinks :=
  { stop_areas := updateMap f1.stop_areas f2.stop_areas
    stop_zones := updateMap f1.stop_zones f2.stop_zones
    route_networks := updateMap f1.route_networks f2.route_networks }

end DeltaMerger

/-- `second.id_store[k].original[i]` totalised (the loop that reads it
never runs). -/
def IdReference.originalD (r : IdReference) (i : Nat) : String :=
  ((r.ids.find? (fun p => p.2 == i)).map Prod.fst).getD ""

/-- The id-carry-forward step of `delta_merge` for one namespace: the loop
`for i in range(v.last_id + 1, v.last_id + 1)` followed by the `last_id`
recomputation. -/
def idCarryForward (v sec : IdReference) : IdReference :=
  let v' := (pyRange (v.last_id + 1) (v.last_id + 1)).foldl
    (fun acc i => { acc with ids := dictInsert acc.ids (sec.originalD i) i }) v
  { v' with last_id := if v'.ids.isEmpty then 0 else (v'.ids.map Prod.snd).foldl max 0 }

/-- The id-store loop of `delta_merge`: namespaces also present in the
second delta's store go through `idCarryForward`. -/
def idCarryAll (s1 s2 : List (Nat × IdReference)) : List (Nat × IdReference) :=
  s1.map (fun p =>
    match alookup p.1 s2 with
    | some sec => (p.1, idCarryForward p.2 sec)
    | none => p)

/-- `delta_merge` of `dmerge.py`: the two version-contiguity checks
(`sys.exit(1)` modelled as `Except.error`), then the header update, the
id-store loop and every `DeltaMerger` method in program order.  The
uncaught `TypeError` that `DeltaMerger.agencies` raises whenever the
second delta carries agency records propagates as an error. -/
def delta_merge (d1 d2 : Delta) : Except String Delta :=
  if d1.header.version < d2.header.old_version then
    .error "Cannot fill the gap between versions."
  else if d2.header.old_version ≤ d1.header.old_version then
    .error "The new delta already covers the scope of the old one."
  else
    let hdr : GtfsDeltaHeader :=
      { old_version := d1.header.old_version
        version := d2.header.version
        date := d2.header.date
        compressed := d2.header.compressed }
    let ids := idCarryAll d1.id_store d2.id_store
    let sNew := d2.strings
    match DeltaMerger.agencies sNew d1.strings d1.agencies d2.agencies with
    | .error e => .error e
    | .ok p1 =>
      let cal := DeltaMerger.calendar d1.calendar d2.calendar
      let shs := DeltaMerger.shapes d1.shapes d2.shapes
      let p2 := DeltaMerger.stops sNew p1.1 d1.stops d2.stops
      let p3 := DeltaMerger.routes sNew p2.1 d1.routes d2.routes
      .ok { header := hdr
            strings := p3.1
            id_store := ids
            agencies := p1.2
            calendar := cal
            shapes := shs
            stops := p2.2
            routes := p3.2
            trips := DeltaMerger.trips d1.trips d2.trips
            transfers := DeltaMerger.transfers d1.transfers d2.transfers
            networks := DeltaMerger.updateMapS d1.networks d2.networks
            areas := DeltaMerger.updateMapS d1.areas d2.areas
            fare_links := DeltaMerger.fare_links d1.fare_links d2.fare_links }

/-! ## Association-list and fold lemmas -/

/-- Keys of an association list are pairwise distinct. -/
def NodupKeys {κ α : Type _} (d : List (κ × α)) : Prop := (d.map Prod.fst).Nodup

theorem alookup_mem {κ α : Type _} [DecidableEq κ] {k : κ} {v : α} :
    ∀ {d : List (κ × α)}, alookup k d = some v → (k, v) ∈ d := by
  intro d
  induction d with
  | nil => intro h; simp [alookup] at h
  | cons p t ih =>
    intro h
    rw [alookup] at h
    by_cases hp : p.1 = k
    · rw [if_pos hp] at h
      cases h
      subst hp
      simp
    · rw [if_neg hp] at h
      exact List.mem_cons_of_mem _ (ih h)

theorem alookup_eq_none_iff {κ α : Type _} [DecidableEq κ] {k : κ} :
    ∀ {d : List (κ × α)}, alookup k d = none ↔ k ∉ d.map Prod.fst := by
  intro d
  induction d with
  | nil => simp [alookup]
  | cons p t ih =>
    by_cases hp : p.1 = k
    · simp [alookup, hp]
    · simp [alookup, hp, ih, Ne.symm hp]

theorem alookup_isSome_iff {κ α : Type _} [DecidableEq κ] {k : κ} {d : List (κ × α)} :
    (alookup k d).isSome ↔ k ∈ d.map Prod.fst := by
  rcases h : alookup k d with _ | v
  · simp [alookup_eq_none_iff.mp h]
  · simp only [Option.isSome_some, true_iff]
    exact List.mem_map.mpr ⟨(k, v), alookup_mem h, rfl⟩

theorem dictInsert_keys_of_some {κ α : Type _} [DecidableEq κ] {d : List (κ × α)}
    {k : κ} {w : α} (v : α) (h : alookup k d = some w) :
    (dictInsert d k v).map Prod.fst = d.map Prod.fst := by
  unfold dictInsert
  rw [h]
  simp only [List.map_map]
  apply List.map_congr_left
  intro p _
  by_cases hp : p.1 = k
  · simp [hp]
  · simp [hp]

theorem dictInsert_keys_of_none {κ α : Type _} [DecidableEq κ] {d : List (κ × α)}
    {k : κ} (v : α) (h : alookup k d = none) :
    (dictInsert d k v).map Prod.fst = d.map Prod.fst ++ [k] := by
  unfold dictInsert
  rw [h]
  simp

theorem dictInsert_nodupKeys {κ α : Type _} [DecidableEq κ] {d : List (κ × α)} (k : κ) (v : α)
    (h : NodupKeys d) : NodupKeys (dictInsert d k v) := by
  unfold NodupKeys at *
  rcases hh : alookup k d with _ | w
  · rw [dictInsert_keys_of_none v hh]
    have hnotin := alookup_eq_none_iff.mp hh
    refine List.Nodup.append h (List.nodup_singleton k) ?_
    intro a ha hb
    simp only [List.mem_singleton] at hb
    subst hb
    exact hnotin ha
  · rw [dictInsert_keys_of_some v hh]
    exact h

theorem pyDict_nodupKeys {κ α : Type _} [DecidableEq κ] (key : α → κ) (l : List α) :
    NodupKeys (pyDict key l) := by
  unfold pyDict
  suffices h : ∀ (xs : List α) (d : List (κ × α)), NodupKeys d →
      NodupKeys (xs.foldl (fun d x => dictInsert d (key x) x) d) by
    exact h l [] (by simp [NodupKeys])
  intro xs
  induction xs with
  | nil => intro d hd; exact hd
  | cons x t ih => intro d hd; exact ih _ (dictInsert_nodupKeys _ _ hd)

theorem alookup_eq_some_of_mem {κ α : Type _} [DecidableEq κ] {k : κ} {v : α} :
    ∀ {d : List (κ × α)}, NodupKeys d → (k, v) ∈ d → alookup k d = some v := by
  intro d
  induction d with
  | nil => intro _ hm; simp at hm
  | cons p t ih =>
    intro hnd hm
    rcases List.mem_cons.mp hm with he | ht
    · rw [← he]; simp [alookup]
    · have hk : p.1 ≠ k := by
        intro hpk
        unfold NodupKeys at hnd
        simp only [List.map_cons, List.nodup_cons] at hnd
        exact hnd.1 (hpk ▸ List.mem_map.mpr ⟨(k, v), ht, rfl⟩)
      have hnd' : NodupKeys t := by
        unfold NodupKeys at hnd ⊢
        simp only [List.map_cons, List.nodup_cons] at hnd
        exact hnd.2
      simp only [alookup, if_neg hk]
      exact ih hnd' ht

/-- Every binding of a `pyDict` is keyed by its value's key and stores one
of the listed elements. -/
theorem pyDict_entry {κ α : Type _} [DecidableEq κ] (key : α → κ) (l : List α) :
    ∀ p ∈ pyDict key l, key p.2 = p.1 ∧ p.2 ∈ l := by
  have h : ∀ (xs : List α) (d : List (κ × α)),
      (∀ p ∈ d, key p.2 = p.1 ∧ p.2 ∈ l) → (∀ x ∈ xs, x ∈ l) →
      ∀ p ∈ xs.foldl (fun d x => dictInsert d (key x) x) d, key p.2 = p.1 ∧ p.2 ∈ l := by
    intro xs
    induction xs with
    | nil => intro d hd _ p hp; exact hd p hp
    | cons x t ih =>
      intro d hd hsub p hp
      refine ih (dictInsert d (key x) x) ?_
        (fun y hy => hsub y (List.mem_cons_of_mem _ hy)) p hp
      intro q hq
      unfold dictInsert at hq
      split at hq
      · rcases List.mem_map.mp hq with ⟨r, hr, hrq⟩
        by_cases hrk : r.1 = key x
        · rw [if_pos hrk] at hrq
          subst hrq
          exact ⟨rfl, hsub x (List.mem_cons_self x t)⟩
        · rw [if_neg hrk] at hrq
          subst hrq
          exact hd r hr
      · rcases List.mem_append.mp hq with hq1 | hq2
        · exact hd q hq1
        · simp only [List.mem_singleton] at hq2
          subst hq2
          exact ⟨rfl, hsub x (List.mem_cons_self x t)⟩
  exact h l [] (by simp) (fun x hx => hx)

/-- A left fold that fixes `b` elementwise fixes it globally. -/
theorem foldl_fixed_mem {α β : Type _} (f : β → α → β) (b : β) :
    ∀ (l : List α), (∀ a ∈ l, f b a = b) → l.foldl f b = b := by
  intro l
  induction l with
  | nil => intro _; rfl
  | cons x t ih =>
    intro h
    have hx := h x (List.mem_cons_self x t)
    simp only [List.foldl_cons, hx]
    exact ih (fun a ha => h a (List.mem_cons_of_mem _ ha))

/-- A fold whose step only appends to the second component preserves
existing members. -/
theorem foldl_snd_app {σ α β : Type _} (step : σ × List β → α → σ × List β)
    (l : List α) (hstep : ∀ acc a, a ∈ l → ∃ t, (step acc a).2 = acc.2 ++ t) :
    ∀ (acc : σ × List β), ∃ t, (l.foldl step acc).2 = acc.2 ++ t := by
  induction l with
  | nil => intro acc; exact ⟨[], by simp⟩
  | cons x xs ih =>
    intro acc
    obtain ⟨t1, ht1⟩ := hstep acc x (List.mem_cons_self x xs)
    obtain ⟨t2, ht2⟩ := ih (fun a b hb => hstep a b (List.mem_cons_of_mem _ hb)) (step acc x)
    exact ⟨t1 ++ t2, by simp [List.foldl_cons, ht2, ht1]⟩

/-- Same as `foldl_snd_app` for folds over a bare list accumulator. -/
theorem foldl_list_app {α β : Type _} (step : List β → α → List β)
    (l : List α) (hstep : ∀ acc a, a ∈ l → ∃ t, step acc a = acc ++ t) :
    ∀ (acc : List β), ∃ t, l.foldl step acc = acc ++ t := by
  induction l with
  | nil => intro acc; exact ⟨[], by simp⟩
  | cons x xs ih =>
    intro acc
    obtain ⟨t1, ht1⟩ := hstep acc x (List.mem_cons_self x xs)
    obtain ⟨t2, ht2⟩ := ih (fun a b hb => hstep a b (List.mem_cons_of_mem _ hb)) (step acc x)
    refine ⟨t1 ++ t2, ?_⟩
    rw [List.foldl_cons, ht2, ht1, List.append_assoc]

/-- In a fold over dict entries whose step appends only records carrying the
entry's key and is the identity on entries with key `k`, no record with key
`k` ever joins the output beyond those already present. -/
theorem foldl_snd_avoid {σ α β κ : Type _} (key : β → κ) (k : κ)
    (step : σ × List β → κ × α → σ × List β) (l : List (κ × α))
    (h1 : ∀ acc kv, kv ∈ l → ∀ r ∈ (step acc kv).2, r ∈ acc.2 ∨ (key r = kv.1 ∧ kv.1 ≠ k))
    (h2 : ∀ acc kv, kv ∈ l → kv.1 = k → step acc kv = acc) :
    ∀ acc, ∀ r ∈ (l.foldl step acc).2, r ∈ acc.2 ∨ key r ≠ k := by
  induction l with
  | nil => intro acc r hr; exact Or.inl hr
  | cons x xs ih =>
    intro acc r hr
    simp only [List.foldl_cons] at hr
    have step_r := ih
      (fun a kv hkv => h1 a kv (List.mem_cons_of_mem _ hkv))
      (fun a kv hkv => h2 a kv (List.mem_cons_of_mem _ hkv))
      (step acc x) r hr
    rcases step_r with hin | hne
    · rcases h1 acc x (List.mem_cons_self x xs) r hin with hacc | ⟨hkey, hnk⟩
      · exact Or.inl hacc
      · exact Or.inr (hkey ▸ hnk)
    · exact Or.inr hne

/-! ## Claims about the symbol tables -/

/-- C8 counterexample: `StringCache.add('')` on a fresh cache does not
return 0 — the empty string misses the index (the constructor skips empty
strings), so it is appended and gets the fresh index 1. -/
theorem stringCache_add_empty_not_zero :
    ((StringCache.ofList []).add "").2 = 1 ∧
    ((StringCache.ofList []).add "").1.strings = ["", ""] := by
  constructor <;> rfl

/-- C8 (amended): `StringCache.add(s)` returns the stored index for a
string present in the index with a non-zero index, leaving the cache
untouched; any other input — including the empty string, which is never in
the index — is appended and returns the fresh index `len(strings) - 1`;
existing entries are never renumbered or reshuffled (the old string list
stays a prefix of the new one). -/
theorem stringCache_add_spec (c : StringCache) (s : String) :
    (∀ i, alookup s c.index = some i → i ≠ 0 → c.add s = (c, i)) ∧
    ((alookup s c.index).getD 0 = 0 →
      (c.add s).1.strings = c.strings ++ [s] ∧ (c.add s).2 = c.strings.length) ∧
    (∃ t, (c.add s).1.strings = c.strings ++ t) := by
  refine ⟨?_, ?_, ?_⟩
  · intro i hi hne
    unfold StringCache.add
    rw [hi]
    simp [hne]
  · intro h0
    unfold StringCache.add
    rcases hh : alookup s c.index with _ | i
    · exact ⟨rfl, rfl⟩
    · rw [hh] at h0
      simp only [Option.getD_some] at h0
      subst h0
      simp
  · unfold StringCache.add
    rcases hh : alookup s c.index with _ | i
    · exact ⟨[s], rfl⟩
    · by_cases hne : i = 0
      · exact ⟨[s], by simp [hne]⟩
      · exact ⟨[], by simp [hne]⟩

/-- C8 witness: the amended behaviour at concrete caches. -/
theorem stringCache_add_spec_witness :
    (StringCache.ofList ["", "a"]).add "a" = (StringCache.ofList ["", "a"], 1) ∧
    ((StringCache.ofList ["", "a"]).add "b").1.strings
      = (StringCache.ofList ["", "a"]).strings ++ ["b"] :=
  ⟨(stringCache_add_spec (StringCache.ofList ["", "a"]) "a").1 1 (by decide) (by decide),
   ((stringCache_add_spec (StringCache.ofList ["", "a"]) "b").2.1 (by decide)).1⟩

/-- C10: `IdReference.get` returns `None` for `None` or empty keys in
either mode; in strict mode a lookup errors (`KeyError`) exactly on a
missing non-empty key, and with `misses=True` a missing non-empty key
yields `None`. -/
theorem idReference_get_spec (r : IdReference) (misses : Bool) :
    r.get none misses = .ok none ∧
    r.get (some "") misses = .ok none ∧
    (∀ s : String, s ≠ "" →
      (r.get (some s) false = .error "KeyError" ↔ alookup s r.ids = none)) ∧
    (∀ s : String, s ≠ "" → alookup s r.ids = none → r.get (some s) true = .ok none) ∧
    (∀ s i, s ≠ "" → alookup s r.ids = some i → r.get (some s) false = .ok (some i)) := by
  refine ⟨rfl, by simp [IdReference.get], ?_, ?_, ?_⟩
  · intro s hs
    unfold IdReference.get
    rcases hh : alookup s r.ids with _ | i
    · simp [hs, hh]
    · simp [hs, hh]
  · intro s hs hmiss
    unfold IdReference.get
    simp [hs, hmiss]
  · intro s i hs hsome
    unfold IdReference.get
    simp [hs, hsome]

/-- C10 witness: the concrete table `{"x": 3}`. -/
theorem idReference_get_spec_witness :
    IdReference.get { ids := [("x", 3)], last_id := 3 } (some "y") false
      = .error "KeyError" ∧
    IdReference.get { ids := [("x", 3)], last_id := 3 } (some "y") true = .ok none ∧
    IdReference.get { ids := [("x", 3)], last_id := 3 } (some "x") false = .ok (some 3) :=
  ⟨((idReference_get_spec { ids := [("x", 3)], last_id := 3 } false).2.2.1 "y"
      (by decide)).mpr (by decide),
   (idReference_get_spec { ids := [("x", 3)], last_id := 3 } true).2.2.2.1 "y"
      (by decide) (by decide),
   (idReference_get_spec { ids := [("x", 3)], last_id := 3 } false).2.2.2.2 "x" 3
      (by decide) (by decide)⟩

/-! ## Claims about the merge engine's frame -/

/-- The empty carry-forward loop leaves one namespace's id dict unchanged. -/
theorem idCarryForward_ids (v sec : IdReference) : (idCarryForward v sec).ids = v.ids := by
  unfold idCarryForward pyRange
  simp [Nat.sub_self]

/-- C7: the `range(last_id + 1, last_id + 1)` loop of `delta_merge` is
empty, so for every pair of id stores and every namespace the first delta's
id table gains no entry from the carry-forward step. -/
theorem idCarryAll_ids_unchanged (s1 s2 : List (Nat × IdReference)) :
    (idCarryAll s1 s2).map (fun p => (p.1, p.2.ids)) = s1.map (fun p => (p.1, p.2.ids)) := by
  unfold idCarryAll
  rw [List.map_map]
  apply List.map_congr_left
  intro p _
  rcases hh : alookup p.1 s2 with _ | sec
  · simp [hh]
  · simp [hh, idCarryForward_ids]

/-- C4: `delta_merge` fails with an error and produces no output whenever
the first delta's version precedes the second's `old_version` (a coverage
gap) or the first delta's `old_version` is at least the second's (the
second supersedes the first's scope), and merging proceeds — a merged
delta comes out — only when neither condition holds.  (Success is not
guaranteed in the other direction: the agencies merge raises `TypeError`
whenever the second delta carries agency records.) -/
theorem delta_merge_checks (d1 d2 : Delta) :
    ((d1.header.version < d2.header.old_version ∨
      d1.header.old_version ≥ d2.header.old_version) →
      ∃ e, delta_merge d1 d2 = .error e) ∧
    (∀ out, delta_merge d1 d2 = .ok out →
      ¬(d1.header.version < d2.header.old_version ∨
        d1.header.old_version ≥ d2.header.old_version)) := by
  by_cases h1 : d1.header.version < d2.header.old_version
  · unfold delta_merge
    simp [h1]
  · by_cases h2 : d2.header.old_version ≤ d1.header.old_version
    · unfold delta_merge
      simp [h1, h2, ge_iff_le]
    · constructor
      · intro hc
        rcases hc with hc | hc
        · exact absurd hc h1
        · exact absurd hc h2
      · intro out _
        intro hc
        rcases hc with hc | hc
        · exact h1 hc
        · exact h2 hc

/-- C4 witness: a superseding pair errors out, a contiguous pair with no
second-delta agencies merges. -/
theorem delta_merge_checks_witness :
    (∃ e, delta_merge { header := { old_version := 2, version := 3 } }
      { header := { old_version := 1, version := 4 } } = .error e) ∧
    (∃ out, delta_merge { header := { old_version := 1, version := 2 } }
      { header := { old_version := 2, version := 3 } } = .ok out) :=
  ⟨(delta_merge_checks { header := { old_version := 2, version := 3 } }
      { header := { old_version := 1, version := 4 } }).1 (by decide),
   ⟨_, rfl⟩⟩

/-! ## Claims about the shape codec -/

/-- Rounding moves a rational by at most one half. -/
theorem abs_pyRound_sub_le (q : ℚ) : |(pyRound q : ℚ) - q| ≤ 1 / 2 := by
  unfold pyRound
  have hf : (⌊q⌋ : ℚ) ≤ q := Int.floor_le q
  have hq : q < ⌊q⌋ + 1 := Int.lt_floor_add_one q
  by_cases h1 : q - ⌊q⌋ < 1 / 2
  · rw [if_pos h1, abs_le]
    constructor <;> linarith
  · rw [if_neg h1]
    by_cases h2 : 1 / 2 < q - ⌊q⌋
    · rw [if_pos h2]
      push_cast
      rw [abs_le]
      constructor <;> linarith
    · rw [if_neg h2]
      have hhalf : q - ⌊q⌋ = 1 / 2 := le_antisymm (not_lt.mp h2) (not_lt.mp h1)
      by_cases h3 : ⌊q⌋ % 2 = 0
      · rw [if_pos h3, abs_le]
        constructor <;> linarith
      · rw [if_neg h3]
        push_cast
        rw [abs_le]
        constructor <;> linarith

/-- One decoded coordinate is within `1/100000` of the encoded one. -/
theorem scaled_round_err (x : ℚ) :
    |(pyRound (x * SHAPE_SCALE) : ℚ) / SHAPE_SCALE - x| ≤ 1 / 100000 := by
  have h := abs_pyRound_sub_le (x * SHAPE_SCALE)
  have hrw : (pyRound (x * SHAPE_SCALE) : ℚ) / SHAPE_SCALE - x
      = ((pyRound (x * SHAPE_SCALE) : ℚ) - x * SHAPE_SCALE) / SHAPE_SCALE := by
    unfold SHAPE_SCALE
    field_simp
    try ring
  rw [hrw, abs_div, abs_of_pos (show (0 : ℚ) < SHAPE_SCALE by norm_num [SHAPE_SCALE])]
  unfold SHAPE_SCALE at h ⊢
  rw [div_le_iff₀ (by norm_num : (0 : ℚ) < 100000)]
  have hh : (1 : ℚ) / 100000 * 100000 = 1 := by norm_num
  rw [hh]
  linarith

/-- Decoding the deltas written from cursor `last` recovers each rounded
point, independently of the cursor. -/
theorem parseFrom_buildDeltas (coords : List (ℚ × ℚ)) :
    ∀ last : ℤ × ℤ, parseFrom last (buildDeltas last coords)
      = coords.map (fun c => ((pyRound (c.1 * SHAPE_SCALE) : ℚ) / SHAPE_SCALE,
                              (pyRound (c.2 * SHAPE_SCALE) : ℚ) / SHAPE_SCALE)) := by
  induction coords with
  | nil => intro last; rfl
  | cons c rest ih =>
    intro last
    show parseFrom last
        ((pyRound (c.1 * SHAPE_SCALE) - last.1, pyRound (c.2 * SHAPE_SCALE) - last.2)
          :: buildDeltas (pyRound (c.1 * SHAPE_SCALE), pyRound (c.2 * SHAPE_SCALE)) rest)
      = _
    rw [parseFrom]
    simp only [sub_add_cancel]
    rw [List.map_cons]
    exact congrArg _ (ih (pyRound (c.1 * SHAPE_SCALE), pyRound (c.2 * SHAPE_SCALE)))

/-- C9: for any list of at least two coordinate pairs, `build_shape`
succeeds and `parse_shape` of the result reproduces every pair within
`1/100000` in each component; for fewer than two pairs `build_shape`
raises. -/
theorem shape_roundtrip_spec :
    (∀ (sid : Nat) (coords : List (ℚ × ℚ)), 2 ≤ coords.length →
      ∃ sh, build_shape sid coords = .ok sh ∧
        List.Forall₂ (fun (c c' : ℚ × ℚ) =>
          |c'.1 - c.1| ≤ 1 / 100000 ∧ |c'.2 - c.2| ≤ 1 / 100000)
          coords (parse_shape sh)) ∧
    (∀ (sid : Nat) (coords : List (ℚ × ℚ)), coords.length < 2 →
      ∃ e, build_shape sid coords = .error e) := by
  constructor
  · intro sid coords hlen
    refine ⟨{ shape_id := sid
              longitudes := (buildDeltas (0, 0) coords).map Prod.fst
              latitudes := (buildDeltas (0, 0) coords).map Prod.snd }, ?_, ?_⟩
    · unfold build_shape
      rw [if_neg (by omega)]
    · unfold parse_shape
      simp only
      rw [List.zip_map' Prod.fst Prod.snd (buildDeltas (0, 0) coords)]
      have hid : (buildDeltas (0, 0) coords).map (fun d => (d.1, d.2))
          = buildDeltas (0, 0) coords := by
        simp
      rw [hid, parseFrom_buildDeltas coords (0, 0)]
      rw [List.forall₂_map_right_iff]
      rw [List.forall₂_same]
      intro c _
      exact ⟨scaled_round_err c.1, scaled_round_err c.2⟩
  · intro sid coords hlen
    unfold build_shape
    rw [if_pos hlen]
    exact ⟨_, rfl⟩

/-- C9 witness: the spec's triple round-trips within `1e-5` and a single
point is rejected. -/
theorem shape_roundtrip_spec_witness :
    (∃ sh, build_shape 7 [(2475 / 100, 5943 / 100), (2476 / 100, 5944 / 100),
        (2477 / 100, 5943 / 100)] = .ok sh ∧
      List.Forall₂ (fun (c c' : ℚ × ℚ) =>
        |c'.1 - c.1| ≤ 1 / 100000 ∧ |c'.2 - c.2| ≤ 1 / 100000)
        [(2475 / 100, 5943 / 100), (2476 / 100, 5944 / 100), (2477 / 100, 5943 / 100)]
        (parse_shape sh)) ∧
    (∃ e, build_shape 7 [(2475 / 100, 5943 / 100)] = .error e) :=
  ⟨shape_roundtrip_spec.1 7
      [(2475 / 100, 5943 / 100), (2476 / 100, 5944 / 100), (2477 / 100, 5943 / 100)]
      (by decide),
   shape_roundtrip_spec.2 7 [(2475 / 100, 5943 / 100)] (by decide)⟩

/-! ## Claims about sparse-record field selection -/

/-- C1: evaluating `DeltaMaker.routes` at a route whose `agency_id` and
`desc` changed while `short_name` did not.  The emitted sparse record
zeroes the changed fields and carries the unchanged one — the conditions
`old.x != v.x ? default : v.x` are inverted relative to the sparse-record
convention (and to `DeltaMaker.stops`/`trips`), so a changed `agency_id`,
`short_name` or `desc` is encoded as "unchanged". -/
theorem routes_sparse_fields_inverted :
    (DeltaMaker.routes {} {} {}
      [{ route_id := 1, agency_id := 1, short_name := "5", desc := "old" }]
      [{ route_id := 1, agency_id := 2, short_name := "5", desc := "new" }]).2
    = [{ route_id := 1, agency_id := 0, short_name := "5", desc := "" }] := by
  decide

/-- C3: evaluating `DeltaMerger.stops` at a stop patched in both deltas
with different non-default `code` values: the merged record keeps the first
delta's code (`first.code or s.code`), while every sibling field — and the
claim — lets the second delta's non-default value win. -/
theorem merger_stops_code_first_wins :
    (DeltaMerger.stops {} {}
      [{ stop_id := 1, code := "A" }] [{ stop_id := 1, code := "B" }]).2
    = [{ stop_id := 1, code := "A" }] := by
  decide

/-! ## Claims about tombstones -/

/-- `stopStep` only ever appends to the record list. -/
theorem stopStep_app (sOld sNew : StringCache) (sd1 : List (Nat × Stop))
    (acc : StringCache × List Stop) (kv : Nat × Stop) :
    ∃ t, (DeltaMaker.stopStep sOld sNew sd1 acc kv).2 = acc.2 ++ t := by
  unfold DeltaMaker.stopStep
  split
  · exact ⟨_, rfl⟩
  · dsimp only
    split
    · exact ⟨[], (List.append_nil _).symm⟩
    · exact ⟨_, rfl⟩

/-- `routeStep` only ever appends to the record list. -/
theorem routeStep_app (sOld sNew : StringCache) (rd1 : List (Nat × Route))
    (acc : StringCache × List Route) (kv : Nat × Route) :
    ∃ t, (DeltaMaker.routeStep sOld sNew rd1 acc kv).2 = acc.2 ++ t := by
  unfold DeltaMaker.routeStep
  split
  · exact ⟨_, rfl⟩
  · dsimp only
    split
    · exact ⟨[], (List.append_nil _).symm⟩
    · split
      · exact ⟨[], (List.append_nil _).symm⟩
      · exact ⟨_, rfl⟩

/-- `agencyStep` only ever appends to the record list. -/
theorem agencyStep_app (sOld sNew : StringCache) (ad1 : List (Nat × Agency))
    (acc : StringCache × List Agency) (kv : Nat × Agency) :
    ∃ t, (DeltaMaker.agencyStep sOld sNew ad1 acc kv).2 = acc.2 ++ t := by
  unfold DeltaMaker.agencyStep
  split
  · exact ⟨_, rfl⟩
  · dsimp only
    split
    · exact ⟨[], (List.append_nil _).symm⟩
    · exact ⟨_, rfl⟩

/-- C2 counterexample: an agency present only in the old snapshot produces
no record at all — `DeltaMaker.agencies` never emits a tombstone, against
the claim's "agencies … a record holding the id". -/
theorem agencies_tombstone_counterexample :
    (DeltaMaker.agencies {} {} {} [{ agency_id := 1, name := "A" }] []).2 = [] ∧
    ({ agency_id := 1 } : Agency) ∉
      (DeltaMaker.agencies {} {} {} [{ agency_id := 1, name := "A" }] []).2 := by
  decide

/-- C2 (amended): ids present in the old snapshot but absent from the new
get tombstones for stops, routes and transfers (id plus `delete=True`) and
default-filled id-only records for trips and shapes; a removed agency
produces no record of its id at all. -/
theorem tombstones_spec (sOld sNew st : StringCache) :
    (∀ (s1 s2 : List Stop) (k : Nat) (o : Stop),
      alookup k (pyDict Stop.stop_id s1) = some o →
      alookup k (pyDict Stop.stop_id s2) = none →
      ({ stop_id := k, delete := true } : Stop) ∈ (DeltaMaker.stops sOld sNew st s1 s2).2) ∧
    (∀ (r1 r2 : List Route) (k : Nat) (o : Route),
      alookup k (pyDict Route.route_id r1) = some o →
      alookup k (pyDict Route.route_id r2) = none →
      ({ route_id := k, delete := true } : Route) ∈ (DeltaMaker.routes sOld sNew st r1 r2).2) ∧
    (∀ (t1 t2 : List Transfer) (k : Nat × Nat × Nat × Nat × Nat × Nat) (o : Transfer),
      alookup k (pyDict DeltaMaker.transfer_key t1) = some o →
      alookup k (pyDict DeltaMaker.transfer_key t2) = none →
      ({ from_stop := o.from_stop, to_stop := o.to_stop
         from_route := o.from_route, to_route := o.to_route
         from_trip := o.from_trip, to_trip := o.to_trip
         delete := true } : Transfer) ∈ DeltaMaker.transfers t1 t2) ∧
    (∀ (t1 t2 : List Trip) (k : Nat) (o : Trip),
      alookup k (pyDict Trip.trip_id t1) = some o →
      alookup k (pyDict Trip.trip_id t2) = none →
      ({ trip_id := k } : Trip) ∈ DeltaMaker.trips t1 t2) ∧
    (∀ (s1 s2 : List Shape) (k : Nat) (o : Shape),
      alookup k (pyDict Shape.shape_id s1) = some o →
      alookup k (pyDict Shape.shape_id s2) = none →
      ({ shape_id := k } : Shape) ∈ DeltaMaker.shapes s1 s2) ∧
    (∀ (a1 a2 : List Agency) (k : Nat) (o : Agency),
      alookup k (pyDict Agency.agency_id a1) = some o →
      alookup k (pyDict Agency.agency_id a2) = none →
      ∀ a ∈ (DeltaMaker.agencies sOld sNew st a1 a2).2, a.agency_id ≠ k) := by
  refine ⟨?_, ?_, ?_, ?_, ?_, ?_⟩
  · intro s1 s2 k o h1 h2
    unfold DeltaMaker.stops
    obtain ⟨t, ht⟩ := foldl_snd_app (DeltaMaker.stopStep sOld sNew (pyDict Stop.stop_id s1))
      (pyDict Stop.stop_id s2) (fun acc a _ => stopStep_app sOld sNew _ acc a) _
    rw [ht]
    refine List.mem_append_left _ (List.mem_map.mpr ⟨(k, o), ?_, rfl⟩)
    rw [List.mem_filter]
    exact ⟨alookup_mem h1, by simp [h2]⟩
  · intro r1 r2 k o h1 h2
    unfold DeltaMaker.routes
    obtain ⟨t, ht⟩ := foldl_snd_app (DeltaMaker.routeStep sOld sNew (pyDict Route.route_id r1))
      (pyDict Route.route_id r2) (fun acc a _ => routeStep_app sOld sNew _ acc a) _
    rw [ht]
    refine List.mem_append_left _ (List.mem_map.mpr ⟨(k, o), ?_, rfl⟩)
    rw [List.mem_filter]
    exact ⟨alookup_mem h1, by simp [h2]⟩
  · intro t1 t2 k o h1 h2
    unfold DeltaMaker.transfers
    obtain ⟨t, ht⟩ := foldl_list_app
      (DeltaMaker.transferStep (pyDict DeltaMaker.transfer_key t1))
      (pyDict DeltaMaker.transfer_key t2)
      (fun acc a _ => by
        unfold DeltaMaker.transferStep
        split
        · exact ⟨_, rfl⟩
        · split
          · exact ⟨[], (List.append_nil _).symm⟩
          · exact ⟨_, rfl⟩) _
    rw [ht]
    refine List.mem_append_left _ (List.mem_map.mpr ⟨(k, o), ?_, rfl⟩)
    rw [List.mem_filter]
    exact ⟨alookup_mem h1, by simp [h2]⟩
  · intro t1 t2 k o h1 h2
    unfold DeltaMaker.trips
    obtain ⟨t, ht⟩ := foldl_list_app
      (DeltaMaker.tripStep (pyDict Trip.trip_id t1)) (pyDict Trip.trip_id t2)
      (fun acc a _ => by
        unfold DeltaMaker.tripStep
        split
        · exact ⟨_, rfl⟩
        · split
          · exact ⟨[], (List.append_nil _).symm⟩
          · exact ⟨_, rfl⟩) _
    rw [ht]
    refine List.mem_append_left _ (List.mem_map.mpr ⟨(k, o), ?_, rfl⟩)
    rw [List.mem_filter]
    exact ⟨alookup_mem h1, by simp [h2]⟩
  · intro s1 s2 k o h1 h2
    unfold DeltaMaker.shapes
    obtain ⟨t, ht⟩ := foldl_list_app
      (DeltaMaker.shapeStep (pyDict Shape.shape_id s1)) (pyDict Shape.shape_id s2)
      (fun acc a _ => by
        unfold DeltaMaker.shapeStep
        split
        · exact ⟨_, rfl⟩
        · split
          · exact ⟨_, rfl⟩
          · exact ⟨[], (List.append_nil _).symm⟩) _
    rw [ht]
    refine List.mem_append_left _ (List.mem_map.mpr ⟨(k, o), ?_, rfl⟩)
    rw [List.mem_filter]
    exact ⟨alookup_mem h1, by simp [h2]⟩
  · intro a1 a2 k o h1 h2
    unfold DeltaMaker.agencies
    intro a ha
    have hk : ∀ kv ∈ pyDict Agency.agency_id a2, kv.1 ≠ k := by
      intro kv hkv hkk
      have := alookup_eq_none_iff.mp h2
      exact this (hkk ▸ List.mem_map.mpr ⟨kv, hkv, rfl⟩)
    have := foldl_snd_avoid Agency.agency_id k
      (DeltaMaker.agencyStep sOld sNew (pyDict Agency.agency_id a1))
      (pyDict Agency.agency_id a2)
      (fun acc kv hkv r hr => by
        have hkey := (pyDict_entry Agency.agency_id a2 kv hkv).1
        revert hr
        unfold DeltaMaker.agencyStep
        dsimp only
        split
        · intro hr
          rcases List.mem_append.mp hr with h | h
          · exact Or.inl h
          · simp only [List.mem_singleton] at h
            subst h
            exact Or.inr ⟨hkey, hk kv hkv⟩
        · split
          · intro hr
            exact Or.inl hr
          · intro hr
            rcases List.mem_append.mp hr with h | h
            · exact Or.inl h
            · simp only [List.mem_singleton] at h
              subst h
              exact Or.inr ⟨rfl, hk kv hkv⟩)
      (fun acc kv hkv hkk => absurd hkk (hk kv hkv))
      (st, []) a ha
    rcases this with h | h
    · simp at h
    · exact h

/-- C2 witness: concrete snapshots exercising every tombstone branch and
the missing agency tombstone. -/
theorem tombstones_spec_witness :
    ({ stop_id := 4, delete := true } : Stop) ∈
      (DeltaMaker.stops {} {} {} [{ stop_id := 4, code := "c" }] []).2 ∧
    ({ route_id := 5, delete := true } : Route) ∈
      (DeltaMaker.routes {} {} {} [{ route_id := 5 }] []).2 ∧
    ({ from_stop := 1, to_stop := 2, delete := true } : Transfer) ∈
      DeltaMaker.transfers [{ from_stop := 1, to_stop := 2, type := 3 }] [] ∧
    ({ trip_id := 6 } : Trip) ∈ DeltaMaker.trips [{ trip_id := 6, service_id := 9 }] [] ∧
    ({ shape_id := 7 } : Shape) ∈ DeltaMaker.shapes [{ shape_id := 7 }] [] ∧
    (∀ a ∈ (DeltaMaker.agencies {} {} {} [{ agency_id := 1, name := "A" }] []).2,
      a.agency_id ≠ 1) :=
  ⟨(tombstones_spec {} {} {}).1 [{ stop_id := 4, code := "c" }] [] 4
      { stop_id := 4, code := "c" } (by decide) (by decide),
   (tombstones_spec {} {} {}).2.1 [{ route_id := 5 }] [] 5 { route_id := 5 }
      (by decide) (by decide),
   (tombstones_spec {} {} {}).2.2.1 [{ from_stop := 1, to_stop := 2, type := 3 }] []
      (1, 2, 0, 0, 0, 0) { from_stop := 1, to_stop := 2, type := 3 } (by decide) (by decide),
   (tombstones_spec {} {} {}).2.2.2.1 [{ trip_id := 6, service_id := 9 }] [] 6
      { trip_id := 6, service_id := 9 } (by decide) (by decide),
   (tombstones_spec {} {} {}).2.2.2.2.1 [{ shape_id := 7 }] [] 7 { shape_id := 7 }
      (by decide) (by decide),
   (tombstones_spec {} {} {}).2.2.2.2.2 [{ agency_id := 1, name := "A" }] [] 1
      { agency_id := 1, name := "A" } (by decide) (by decide)⟩

/-! ## Claims about the no-op diff -/

/-- The reindexing `from_old` is the identity on a string id: the cache
resolves its own string back to the same index.  This holds for every id a
well-formed snapshot stores (duplicates or out-of-range ids would break
it). -/
def reindexOk (c : StringCache) (sid : Nat) : Prop :=
  DeltaMaker.from_old c c sid = sid

instance (c : StringCache) (sid : Nat) : Decidable (reindexOk c sid) :=
  inferInstanceAs (Decidable (_ = _))

theorem pyDict_lookup_self {κ α : Type _} [DecidableEq κ] (key : α → κ) (l : List α) :
    ∀ kv ∈ pyDict key l, alookup kv.1 (pyDict key l) = some kv.2 :=
  fun _ hkv => alookup_eq_some_of_mem (pyDict_nodupKeys key l) hkv

/-- Diffing a dict against itself produces no tombstones. -/
theorem self_tombs_nil {κ α β : Type _} [DecidableEq κ] [DecidableEq α] (key : α → κ) (l : List α)
    (f : κ × α → β) :
    ((pyDict key l).filter (fun p => alookup p.1 (pyDict key l) = none)).map f = [] := by
  rw [List.map_eq_nil_iff, List.filter_eq_nil_iff]
  intro p hp
  simp [pyDict_lookup_self key l p hp]

/-- `DeltaMaker.agencies` of identical inputs emits nothing. -/
theorem agencies_diag (c st : StringCache) (l : List Agency)
    (h : ∀ a ∈ l, reindexOk c a.timezone) :
    DeltaMaker.agencies c c st l l = (st, []) := by
  unfold DeltaMaker.agencies
  apply foldl_fixed_mem
  intro kv hkv
  unfold DeltaMaker.agencyStep
  rw [pyDict_lookup_self Agency.agency_id l kv hkv]
  dsimp only
  have htz : DeltaMaker.from_old c c kv.2.timezone = kv.2.timezone :=
    h kv.2 (pyDict_entry Agency.agency_id l kv hkv).2
  rw [htz]
  rw [if_pos rfl]

/-- `DeltaMaker.stops` of identical inputs emits nothing. -/
theorem stops_diag (c st : StringCache) (l : List Stop)
    (h : ∀ s ∈ l, reindexOk c s.name) :
    DeltaMaker.stops c c st l l = (st, []) := by
  unfold DeltaMaker.stops
  dsimp only
  rw [self_tombs_nil Stop.stop_id l]
  apply foldl_fixed_mem
  intro kv hkv
  unfold DeltaMaker.stopStep
  rw [pyDict_lookup_self Stop.stop_id l kv hkv]
  dsimp only
  have hn : DeltaMaker.from_old c c kv.2.name = kv.2.name :=
    h kv.2 (pyDict_entry Stop.stop_id l kv hkv).2
  rw [hn]
  rw [if_pos rfl]

/-- `DeltaMaker.routes` of identical inputs emits nothing. -/
theorem routes_diag (c st : StringCache) (l : List Route)
    (h : ∀ r ∈ l, ∀ n ∈ r.long_name, reindexOk c n) :
    DeltaMaker.routes c c st l l = (st, []) := by
  unfold DeltaMaker.routes
  dsimp only
  rw [self_tombs_nil Route.route_id l]
  apply foldl_fixed_mem
  intro kv hkv
  unfold DeltaMaker.routeStep
  rw [pyDict_lookup_self Route.route_id l kv hkv]
  dsimp only
  have hmap : kv.2.long_name.map (DeltaMaker.from_old c c) = kv.2.long_name := by
    conv_rhs => rw [← List.map_id kv.2.long_name]
    exact List.map_congr_left (fun n hn => h kv.2 (pyDict_entry Route.route_id l kv hkv).2 n hn)
  unfold DeltaMaker.rehomeRouteNames
  rw [hmap]
  rw [if_pos rfl]

/-- `DeltaMaker.trips` of identical inputs emits nothing. -/
theorem trips_diag (l : List Trip) : DeltaMaker.trips l l = [] := by
  unfold DeltaMaker.trips
  dsimp only
  rw [self_tombs_nil Trip.trip_id l]
  apply foldl_fixed_mem
  intro kv hkv
  unfold DeltaMaker.tripStep
  rw [pyDict_lookup_self Trip.trip_id l kv hkv]
  dsimp only
  rw [if_pos rfl]

/-- `DeltaMaker.shapes` of identical inputs emits nothing. -/
theorem shapes_diag (l : List Shape) : DeltaMaker.shapes l l = [] := by
  unfold DeltaMaker.shapes
  dsimp only
  rw [self_tombs_nil Shape.shape_id l]
  apply foldl_fixed_mem
  intro kv hkv
  unfold DeltaMaker.shapeStep
  rw [pyDict_lookup_self Shape.shape_id l kv hkv]
  dsimp only
  rw [if_neg (by simp)]

/-- `DeltaMaker.transfers` of identical inputs emits nothing. -/
theorem transfers_diag (l : List Transfer) : DeltaMaker.transfers l l = [] := by
  unfold DeltaMaker.transfers
  dsimp only
  rw [self_tombs_nil DeltaMaker.transfer_key l]
  apply foldl_fixed_mem
  intro kv hkv
  unfold DeltaMaker.transferStep
  rw [pyDict_lookup_self DeltaMaker.transfer_key l kv hkv]
  dsimp only
  rw [if_pos rfl]

/-- `CalendarService.equals` is reflexive for any base date. -/
theorem calendarService_equals_refl (a : CalendarService) (bd : Option Int) :
    a.equals a bd = true := by
  unfold CalendarService.equals
  simp

/-- `DeltaMaker.calendar` of identical inputs keeps no services. -/
theorem calendar_diag (today : Int) (c : Calendar) :
    (DeltaMaker.calendar today c c).services = [] := by
  unfold DeltaMaker.calendar
  dsimp only
  rw [self_tombs_nil CalendarService.service_id (parse_calendar c)]
  rw [foldl_fixed_mem
    (DeltaMaker.calendarStep today (pyDict CalendarService.service_id (parse_calendar c)))
    [] (pyDict CalendarService.service_id (parse_calendar c))
    (fun kv hkv => by
      unfold DeltaMaker.calendarStep
      rw [pyDict_lookup_self CalendarService.service_id (parse_calendar c) kv hkv]
      dsimp only
      rw [if_pos (calendarService_equals_refl kv.2 _)])]
  rfl

/-- `delta_dict` of identical well-formed maps is empty. -/
theorem delta_dict_diag (d : List (Nat × String)) (h : NodupKeys d) :
    DeltaMaker.delta_dict d d = [] := by
  unfold DeltaMaker.delta_dict
  rw [List.filter_eq_nil_iff]
  intro kv hkv
  simp [alookup_eq_some_of_mem h hkv]

/-- `delta_dict_int` of identical well-formed maps is empty. -/
theorem delta_dict_int_diag (d : List (Nat × Nat)) (h : NodupKeys d) :
    DeltaMaker.delta_dict_int d d = [] := by
  unfold DeltaMaker.delta_dict_int
  have h1 : d.filter (fun kv => alookup kv.1 d = none) = [] := by
    rw [List.filter_eq_nil_iff]
    intro kv hkv
    simp [alookup_eq_some_of_mem h hkv]
  have h2 : d.filter (fun kv => alookup kv.1 d ≠ some kv.2) = [] := by
    rw [List.filter_eq_nil_iff]
    intro kv hkv
    simp [alookup_eq_some_of_mem h hkv]
  rw [h1, h2]
  rfl

/-- Well-formedness a decoded snapshot satisfies: every stored string id
resolves back to itself through its own cache (no duplicate or
out-of-range string entries among those referenced), and the
dict-decoded maps have distinct keys. -/
def SnapshotWF (S : Snapshot) : Prop :=
  (∀ a ∈ S.agencies, reindexOk S.strings a.timezone) ∧
  (∀ s ∈ S.stops, reindexOk S.strings s.name) ∧
  (∀ r ∈ S.routes, ∀ n ∈ r.long_name, reindexOk S.strings n) ∧
  NodupKeys S.networks ∧
  NodupKeys S.areas ∧
  NodupKeys S.fare_links.stop_areas ∧
  NodupKeys S.fare_links.stop_zones ∧
  NodupKeys S.fare_links.route_networks

instance (S : Snapshot) : Decidable (SnapshotWF S) := by
  unfold SnapshotWF NodupKeys
  infer_instance

/-- C5: diffing a well-formed snapshot against itself produces a delta in
which every entity collection — agencies, calendar services, shapes,
stops, routes, trips, transfers, networks, areas and fare links — is
empty. -/
theorem diff_self_empty (today : Int) (st : StringCache) (S : Snapshot)
    (h : SnapshotWF S) :
    (diffSnapshot today st S S).agencies = [] ∧
    (diffSnapshot today st S S).calendar.services = [] ∧
    (diffSnapshot today st S S).shapes = [] ∧
    (diffSnapshot today st S S).stops = [] ∧
    (diffSnapshot today st S S).routes = [] ∧
    (diffSnapshot today st S S).trips = [] ∧
    (diffSnapshot today st S S).transfers = [] ∧
    (diffSnapshot today st S S).networks = [] ∧
    (diffSnapshot today st S S).areas = [] ∧
    (diffSnapshot today st S S).fare_links = ({} : FareLinks) := by
  obtain ⟨h1, h2, h3, hn, ha, hf1, hf2, hf3⟩ := h
  have hA := agencies_diag S.strings st S.agencies h1
  have hS := stops_diag S.strings st S.stops h2
  have hR := routes_diag S.strings st S.routes h3
  have hC := calendar_diag today S.calendar
  have hT := trips_diag S.trips
  have hSh := shapes_diag S.shapes
  have hTr := transfers_diag S.transfers
  have hN := delta_dict_diag S.networks hn
  have hAr := delta_dict_diag S.areas ha
  have hF1 := delta_dict_int_diag S.fare_links.stop_areas hf1
  have hF2 := delta_dict_int_diag S.fare_links.stop_zones hf2
  have hF3 := delta_dict_int_diag S.fare_links.route_networks hf3
  unfold diffSnapshot
  simp only [hA, hS, hR, hC, hT, hSh, hTr, hN, hAr]
  unfold DeltaMaker.fare_links
  simp only [hF1, hF2, hF3]
  simp

/-- A concrete snapshot exercising every collection, used as the C5
witness input. -/
def sampleSnapshot : Snapshot :=
  { strings := StringCache.ofList ["", "tz", "stopname", "long1"]
    agencies := [{ agency_id := 1, name := "Ag", timezone := 1 }]
    calendar := { base_date := 20240101
                  dates := [{ dates := [] }, { dates := [3, 2] }]
                  services := [{ service_id := 1, start_date := 1, end_date := 30,
                                 weekdays := 127, added_days := 1, removed_days := 0 }] }
    shapes := [{ shape_id := 1, longitudes := [100, 5], latitudes := [50, -5] }]
    stops := [{ stop_id := 1, name := 2, lat := 10, lon := 20 }]
    routes := [{ route_id := 1, agency_id := 1, short_name := "5", long_name := [3]
                 itineraries := [{ itinerary_id := 1, stops := [1] }] }]
    trips := [{ trip_id := 1, service_id := 1, itinerary_id := 1 }]
    transfers := [{ from_stop := 1, to_stop := 1, type := 2 }]
    networks := [(1, "net")]
    areas := [(1, "area")]
    fare_links := { stop_areas := [(1, 1)], stop_zones := [(1, 2)]
                    route_networks := [(1, 3)] } }

/-- C5 witness: the sample snapshot is well-formed and its self-diff has
every collection empty. -/
theorem diff_self_empty_witness :
    SnapshotWF sampleSnapshot ∧
    (diffSnapshot 20000 {} sampleSnapshot sampleSnapshot).stops = [] ∧
    (diffSnapshot 20000 {} sampleSnapshot sampleSnapshot).calendar.services = [] ∧
    (diffSnapshot 20000 {} sampleSnapshot sampleSnapshot).routes = [] :=
  ⟨by decide,
   (diff_self_empty 20000 {} sampleSnapshot (by decide)).2.2.2.1,
   (diff_self_empty 20000 {} sampleSnapshot (by decide)).2.1,
   (diff_self_empty 20000 {} sampleSnapshot (by decide)).2.2.2.2.1⟩

/-! ## Claims about order-only itinerary changes -/

/-- Sorting by itinerary id maps permuted lists with distinct ids to the
same list. -/
theorem sortItins_eq_of_perm {l1 l2 : List RouteItinerary}
    (hp : l1.Perm l2) (hnd : (l2.map RouteItinerary.itinerary_id).Nodup) :
    DeltaMaker.sortItins l1 = DeltaMaker.sortItins l2 := by
  unfold DeltaMaker.sortItins
  haveI : IsTotal RouteItinerary (fun a b => a.itinerary_id ≤ b.itinerary_id) :=
    ⟨fun a b => Nat.le_total a.itinerary_id b.itinerary_id⟩
  haveI : IsTrans RouteItinerary (fun a b => a.itinerary_id ≤ b.itinerary_id) :=
    ⟨fun _ _ _ hab hbc => Nat.le_trans hab hbc⟩
  haveI : IsAntisymm RouteItinerary (fun a b => a.itinerary_id < b.itinerary_id) :=
    ⟨fun _ _ h1 h2 => absurd h2 (Nat.lt_asymm h1)⟩
  have hs1 := List.sorted_insertionSort (fun a b => a.itinerary_id ≤ b.itinerary_id) l1
  have hs2 := List.sorted_insertionSort (fun a b => a.itinerary_id ≤ b.itinerary_id) l2
  have hperm12 :
      (l1.insertionSort (fun a b => a.itinerary_id ≤ b.itinerary_id)).Perm
        (l2.insertionSort (fun a b => a.itinerary_id ≤ b.itinerary_id)) :=
    ((List.perm_insertionSort _ l1).trans hp).trans (List.perm_insertionSort _ l2).symm
  have hnd2 : ((l2.insertionSort (fun a b => a.itinerary_id ≤ b.itinerary_id)).map
      RouteItinerary.itinerary_id).Nodup :=
    (((List.perm_insertionSort _ l2).map RouteItinerary.itinerary_id).nodup_iff).mpr hnd
  have hnd1 : ((l1.insertionSort (fun a b => a.itinerary_id ≤ b.itinerary_id)).map
      RouteItinerary.itinerary_id).Nodup :=
    ((hperm12.map RouteItinerary.itinerary_id).nodup_iff).mpr hnd2
  have hlt1 : List.Sorted (fun a b : RouteItinerary => a.itinerary_id < b.itinerary_id)
      (l1.insertionSort (fun a b => a.itinerary_id ≤ b.itinerary_id)) := by
    have hne := (List.pairwise_map).mp hnd1
    exact (hs1.and hne).imp (fun h => lt_of_le_of_ne h.1 h.2)
  have hlt2 : List.Sorted (fun a b : RouteItinerary => a.itinerary_id < b.itinerary_id)
      (l2.insertionSort (fun a b => a.itinerary_id ≤ b.itinerary_id)) := by
    have hne := (List.pairwise_map).mp hnd2
    exact (hs2.and hne).imp (fun h => lt_of_le_of_ne h.1 h.2)
  exact List.eq_of_perm_of_sorted hperm12 hlt1 hlt2

/-- When the non-itinerary fields agree after rehoming and the sorted
itinerary lists agree, the `routes` loop body skips the entry, for any
running accumulator. -/
theorem routeStep_skip (sOld sNew : StringCache) (rd1 : List (Nat × Route)) (k : Nat)
    (o v : Route) (hl : alookup k rd1 = some o)
    (heq : DeltaMaker.eraseItins (DeltaMaker.rehomeRouteNames sOld sNew o)
         = DeltaMaker.eraseItins v)
    (hsort : DeltaMaker.sortItins o.itineraries = DeltaMaker.sortItins v.itineraries) :
    ∀ acc, DeltaMaker.routeStep sOld sNew rd1 acc (k, v) = acc := by
  intro acc
  unfold DeltaMaker.routeStep
  rw [hl]
  dsimp only
  by_cases hov : DeltaMaker.rehomeRouteNames sOld sNew o = v
  · rw [if_pos hov]
  · rw [if_neg hov, if_pos ⟨heq, hsort⟩]

/-- Every record the `routes` loop body emits beyond the accumulator
carries the processed entry's key as its id. -/
theorem routeStep_emit_id (sOld sNew : StringCache) (rd1 : List (Nat × Route))
    (acc : StringCache × List Route) (kv : Nat × Route) (hkey : kv.2.route_id = kv.1) :
    ∀ rr ∈ (DeltaMaker.routeStep sOld sNew rd1 acc kv).2,
      rr ∈ acc.2 ∨ rr.route_id = kv.1 := by
  intro rr hrr
  revert hrr
  unfold DeltaMaker.routeStep
  split
  · intro hrr
    rcases List.mem_append.mp hrr with h | h
    · exact Or.inl h
    · simp only [List.mem_singleton] at h
      subst h
      exact Or.inr hkey
  · dsimp only
    split
    · intro hrr
      exact Or.inl hrr
    · split
      · intro hrr
        exact Or.inl hrr
      · intro hrr
        rcases List.mem_append.mp hrr with h | h
        · exact Or.inl h
        · simp only [List.mem_singleton] at h
          subst h
          split
          · exact Or.inr rfl
          · exact Or.inr rfl

/-- C6: a route present in both snapshots whose non-itinerary fields are
unchanged (after rehoming) and whose itineraries are merely a permutation
with distinct ids contributes nothing to the diff: no emitted record — no
tombstone, full record or sparse patch — carries its id. -/
theorem route_order_only_unchanged (sOld sNew st : StringCache)
    (r1 r2 : List Route) (k : Nat) (o v : Route)
    (h1 : alookup k (pyDict Route.route_id r1) = some o)
    (h2 : alookup k (pyDict Route.route_id r2) = some v)
    (heq : DeltaMaker.eraseItins (DeltaMaker.rehomeRouteNames sOld sNew o)
         = DeltaMaker.eraseItins v)
    (hperm : o.itineraries.Perm v.itineraries)
    (hnd : (v.itineraries.map RouteItinerary.itinerary_id).Nodup) :
    ∀ r ∈ (DeltaMaker.routes sOld sNew st r1 r2).2, r.route_id ≠ k := by
  have hsort := sortItins_eq_of_perm hperm hnd
  intro r hr
  unfold DeltaMaker.routes at hr
  dsimp only at hr
  have havoid := foldl_snd_avoid Route.route_id k
    (DeltaMaker.routeStep sOld sNew (pyDict Route.route_id r1))
    (pyDict Route.route_id r2)
    (fun acc kv hkv rr hrr => by
      by_cases hkk : kv.1 = k
      · have hkv2 : kv.2 = v := by
          have := pyDict_lookup_self Route.route_id r2 kv hkv
          rw [hkk, h2] at this
          exact (Option.some.injEq _ _).mp this.symm
        have hkv' : kv = (k, v) := by rw [← hkk, ← hkv2]
        rw [hkv', routeStep_skip sOld sNew _ k o v h1 heq hsort acc] at hrr
        exact Or.inl hrr
      · rcases routeStep_emit_id sOld sNew _ acc kv
          (pyDict_entry Route.route_id r2 kv hkv).1 rr hrr with h | h
        · exact Or.inl h
        · exact Or.inr ⟨h, hkk⟩)
    (fun acc kv hkv hkk => by
      have hkv2 : kv.2 = v := by
        have := pyDict_lookup_self Route.route_id r2 kv hkv
        rw [hkk, h2] at this
        exact (Option.some.injEq _ _).mp this.symm
      calc DeltaMaker.routeStep sOld sNew (pyDict Route.route_id r1) acc kv
          = DeltaMaker.routeStep sOld sNew (pyDict Route.route_id r1) acc (k, v) := by
            rw [← hkk, ← hkv2]
        _ = acc := routeStep_skip sOld sNew _ k o v h1 heq hsort acc)
    _ r hr
  rcases havoid with hin | hne
  · -- r is a tombstone: its id is a key of rd1 missing from rd2, so not k
    rcases List.mem_map.mp hin with ⟨p, hp, hpr⟩
    rw [List.mem_filter] at hp
    intro hrk
    have hnone : alookup p.1 (pyDict Route.route_id r2) = none := by
      have := hp.2
      simpa using this
    rw [← hpr] at hrk
    simp only at hrk
    rw [hrk, h2] at hnone
    cases hnone
  · exact hne

/-- C6 witness: a route whose two itineraries are listed in the opposite
order in the new snapshot yields no route record. -/
theorem route_order_only_unchanged_witness :
    ((DeltaMaker.routes {} {} {}
      [{ route_id := 1, short_name := "5"
         itineraries := [{ itinerary_id := 1, stops := [1, 2] },
                         { itinerary_id := 2, stops := [2, 1] }] }]
      [{ route_id := 1, short_name := "5"
         itineraries := [{ itinerary_id := 2, stops := [2, 1] },
                         { itinerary_id := 1, stops := [1, 2] }] }]).2.all
      (fun r => r.route_id ≠ 1)) = true := by
  have h := route_order_only_unchanged {} {} {}
    [{ route_id := 1, short_name := "5"
       itineraries := [{ itinerary_id := 1, stops := [1, 2] },
                       { itinerary_id := 2, stops := [2, 1] }] }]
    [{ route_id := 1, short_name := "5"
       itineraries := [{ itinerary_id := 2, stops := [2, 1] },
                       { itinerary_id := 1, stops := [1, 2] }] }]
    1
    { route_id := 1, short_name := "5"
      itineraries := [{ itinerary_id := 1, stops := [1, 2] },
                      { itinerary_id := 2, stops := [2, 1] }] }
    { route_id := 1, short_name := "5"
      itineraries := [{ itinerary_id := 2, stops := [2, 1] },
                      { itinerary_id := 1, stops := [1, 2] }] }
    (by decide) (by decide) (by decide) (by decide) (by decide)
  rw [List.all_eq_true]
  intro r hr
  simpa using h r hr

end GtfsProto
